import Mathlib

/-!
Verification development for the goidc OAuth 2.1 / OpenID Connect
authorization server.  The Go source is shallowly embedded: pure Go
functions become Lean functions on `Nat`/`Int`/`String`/`List`, stateful
store operations become explicit state passing over a store record, and
fallible operations return `Option`/`Except`.  Machine integers are
modelled as unbounded integers with explicit reductions where the Go
code can overflow.
-/

namespace Goidc

/-! ## Bytes and UTF-8

Go strings are byte sequences; `[]byte(s)` yields the UTF-8 encoding.
We model bytes as `Nat` values below 256 and encode Lean strings the
same way Go does. -/

/-- UTF-8 encoding of a single Unicode code point, as Go produces it. -/
def utf8Bytes (c : Nat) : List Nat :=
  if c < 0x80 then
    [c]
  else if c < 0x800 then
    [0xC0 + c / 0x40, 0x80 + c % 0x40]
  else if c < 0x10000 then
    [0xE0 + c / 0x1000, 0x80 + c / 0x40 % 0x40, 0x80 + c % 0x40]
  else
    [0xF0 + c / 0x40000, 0x80 + c / 0x1000 % 0x40, 0x80 + c / 0x40 % 0x40, 0x80 + c % 0x40]

/-- The byte sequence of a string, as Go's `[]byte(s)` (UTF-8). -/
def strBytes (s : String) : List Nat :=
  (s.data.map (fun ch => utf8Bytes ch.toNat)).flatten

/-- Byte length of a string, as Go's `len(s)`. -/
def goStrLen (s : String) : Nat :=
  (strBytes s).length

/-! ## base64url (RFC 4648 §5, unpadded)

Models Go's `base64.RawURLEncoding.EncodeToString`. -/

def base64URLAlphabet : List Char :=
  "ABCDEFGHIJKLMNOPQRSTUVWXYZabcdefghijklmnopqrstuvwxyz0123456789-_".data

def b64Char (n : Nat) : Char :=
  base64URLAlphabet.getD n 'A'

def base64URLChars : List Nat → List Char
  | [] => []
  | [b1] =>
      [b64Char (b1 / 4), b64Char (b1 % 4 * 16)]
  | [b1, b2] =>
      [b64Char (b1 / 4), b64Char (b1 % 4 * 16 + b2 / 16), b64Char (b2 % 16 * 4)]
  | b1 :: b2 :: b3 :: rest =>
      b64Char (b1 / 4) :: b64Char (b1 % 4 * 16 + b2 / 16) ::
      b64Char (b2 % 16 * 4 + b3 / 64) :: b64Char (b3 % 64) :: base64URLChars rest

/-- Unpadded base64url encoding of a byte sequence
(Go `base64.RawURLEncoding.EncodeToString`). -/
def base64URLEncode (bs : List Nat) : String :=
  String.mk (base64URLChars bs)

/-! ## SHA-256 (FIPS 180-4)

Models Go's `crypto/sha256`.  32-bit words are `Nat` values reduced
modulo `2^32`. -/

def w32 (n : Nat) : Nat := n % 4294967296

def rotr32 (x n : Nat) : Nat := w32 (x / 2 ^ n + x % 2 ^ n * 2 ^ (32 - n))

/-- Bitwise complement on 32-bit words (valid for `x < 2^32`). -/
def not32 (x : Nat) : Nat := 4294967295 - x

def sha256K : List Nat :=
  [1116352408, 1899447441, 3049323471, 3921009573, 961987163, 1508970993, 2453635748,
   2870763221, 3624381080, 310598401, 607225278, 1426881987, 1925078388, 2162078206,
   2614888103, 3248222580, 3835390401, 4022224774, 264347078, 604807628, 770255983,
   1249150122, 1555081692, 1996064986, 2554220882, 2821834349, 2952996808, 3210313671,
   3336571891, 3584528711, 113926993, 338241895, 666307205, 773529912, 1294757372,
   1396182291, 1695183700, 1986661051, 2177026350, 2456956037, 2730485921, 2820302411,
   3259730800, 3345764771, 3516065817, 3600352804, 4094571909, 275423344, 430227734,
   506948616, 659060556, 883997877, 958139571, 1322822218, 1537002063, 1747873779,
   1955562222, 2024104815, 2227730452, 2361852424, 2428436474, 2756734187, 3204031479,
   3329325298]

/-- Working state of the SHA-2 compression function. -/
structure Sha2State where
  a : Nat
  b : Nat
  c : Nat
  d : Nat
  e : Nat
  f : Nat
  g : Nat
  h : Nat
deriving Repr, DecidableEq

def sha256Init : Sha2State :=
  ⟨1779033703, 3144134277, 1013904242, 2773480762, 1359893119,
   2600822924, 528734635, 1541459225⟩

/-- Split a list into consecutive chunks of `n` elements (`n > 0`),
with structural recursion on a fuel bounded by the list length so the
kernel can evaluate it. -/
def chunkListGo (n : Nat) : Nat → List α → List (List α)
  | _, [] => []
  | 0, _ :: _ => []
  | fuel + 1, x :: xs => (x :: xs).take n :: chunkListGo n fuel ((x :: xs).drop n)

def chunkList (n : Nat) (l : List α) : List (List α) :=
  chunkListGo n l.length l

/-- Big-endian bytes of an `n`-byte value. -/
def beBytes : Nat → Nat → List Nat
  | 0, _ => []
  | k + 1, v => v / 2 ^ (8 * k) % 256 :: beBytes k v

/-- SHA-256 / SHA-224 message padding: append `0x80`, zeros, and the
64-bit big-endian bit length, reaching a multiple of 64 bytes. -/
def sha256Pad (msg : List Nat) : List Nat :=
  let len := msg.length
  let zeros := (119 - len % 64) % 64
  msg ++ 0x80 :: List.replicate zeros 0 ++ beBytes 8 (len * 8)

/-- Big-endian 32-bit words from groups of 4 bytes. -/
def toWords32 (block : List Nat) : List Nat :=
  (chunkList 4 block).map (fun g => g.foldl (fun acc x => acc * 256 + x) 0)

def sha256SmallSigma0 (x : Nat) : Nat :=
  Nat.xor (Nat.xor (rotr32 x 7) (rotr32 x 18)) (x / 2 ^ 3)

def sha256SmallSigma1 (x : Nat) : Nat :=
  Nat.xor (Nat.xor (rotr32 x 17) (rotr32 x 19)) (x / 2 ^ 10)

def sha256BigSigma0 (x : Nat) : Nat :=
  Nat.xor (Nat.xor (rotr32 x 2) (rotr32 x 13)) (rotr32 x 22)

def sha256BigSigma1 (x : Nat) : Nat :=
  Nat.xor (Nat.xor (rotr32 x 6) (rotr32 x 11)) (rotr32 x 25)

/-- Extend the 16 block words with `count` further schedule words. -/
def sha256Extend : Nat → Array Nat → Array Nat
  | 0, w => w
  | count + 1, w =>
      let t := w.size
      let next := w32 (sha256SmallSigma1 (w.getD (t - 2) 0) + w.getD (t - 7) 0 +
        sha256SmallSigma0 (w.getD (t - 15) 0) + w.getD (t - 16) 0)
      sha256Extend count (w.push next)

def sha256Round (st : Sha2State) (kw : Nat × Nat) : Sha2State :=
  let t1 := w32 (st.h + sha256BigSigma1 st.e +
    Nat.xor (Nat.land st.e st.f) (Nat.land (not32 st.e) st.g) + kw.1 + kw.2)
  let t2 := w32 (sha256BigSigma0 st.a +
    Nat.xor (Nat.xor (Nat.land st.a st.b) (Nat.land st.a st.c)) (Nat.land st.b st.c))
  ⟨w32 (t1 + t2), st.a, st.b, st.c, w32 (st.d + t1), st.e, st.f, st.g⟩

def addState32 (x y : Sha2State) : Sha2State :=
  ⟨w32 (x.a + y.a), w32 (x.b + y.b), w32 (x.c + y.c), w32 (x.d + y.d),
   w32 (x.e + y.e), w32 (x.f + y.f), w32 (x.g + y.g), w32 (x.h + y.h)⟩

def sha256Block (st : Sha2State) (block : List Nat) : Sha2State :=
  let w := sha256Extend 48 (toWords32 block).toArray
  addState32 st ((sha256K.zip w.toList).foldl sha256Round st)

/-- SHA-256 digest (32 bytes) of a byte sequence. -/
def sha256 (msg : List Nat) : List Nat :=
  let st := (chunkList 64 (sha256Pad msg)).foldl sha256Block sha256Init
  ([st.a, st.b, st.c, st.d, st.e, st.f, st.g, st.h].map (beBytes 4)).flatten

/-! ## SHA-512 and SHA-384 (FIPS 180-4)

Models Go's `crypto/sha512` (`sha512.New` and `sha512.New384`).
64-bit words are `Nat` values reduced modulo `2^64`. -/

def w64 (n : Nat) : Nat := n % 18446744073709551616

def rotr64 (x n : Nat) : Nat := w64 (x / 2 ^ n + x % 2 ^ n * 2 ^ (64 - n))

/-- Bitwise complement on 64-bit words (valid for `x < 2^64`). -/
def not64 (x : Nat) : Nat := 18446744073709551615 - x

def sha512K : List Nat :=
  [4794697086780616226, 8158064640168781261, 13096744586834688815,
   16840607885511220156, 4131703408338449720, 6480981068601479193,
   10538285296894168987, 12329834152419229976, 15566598209576043074,
   1334009975649890238, 2608012711638119052, 6128411473006802146, 8268148722764581231,
   9286055187155687089, 11230858885718282805, 13951009754708518548,
   16472876342353939154, 17275323862435702243, 1135362057144423861,
   2597628984639134821, 3308224258029322869, 5365058923640841347, 6679025012923562964,
   8573033837759648693, 10970295158949994411, 12119686244451234320,
   12683024718118986047, 13788192230050041572, 14330467153632333762,
   15395433587784984357, 489312712824947311, 1452737877330783856, 2861767655752347644,
   3322285676063803686, 5560940570517711597, 5996557281743188959, 7280758554555802590,
   8532644243296465576, 9350256976987008742, 10552545826968843579,
   11727347734174303076, 12113106623233404929, 14000437183269869457,
   14369950271660146224, 15101387698204529176, 15463397548674623760,
   17586052441742319658, 1182934255886127544, 1847814050463011016, 2177327727835720531,
   2830643537854262169, 3796741975233480872, 4115178125766777443, 5681478168544905931,
   6601373596472566643, 7507060721942968483, 8399075790359081724, 8693463985226723168,
   9568029438360202098, 10144078919501101548, 10430055236837252648,
   11840083180663258601, 13761210420658862357, 14299343276471374635,
   14566680578165727644, 15097957966210449927, 16922976911328602910,
   17689382322260857208, 500013540394364858, 748580250866718886, 1242879168328830382,
   1977374033974150939, 2944078676154940804, 3659926193048069267, 4368137639120453308,
   4836135668995329356, 5532061633213252278, 6448918945643986474, 6902733635092675308,
   7801388544844847127]

def sha512Init : Sha2State :=
  ⟨7640891576956012808, 13503953896175478587, 4354685564936845355,
   11912009170470909681, 5840696475078001361, 11170449401992604703,
   2270897969802886507, 6620516959819538809⟩

def sha384Init : Sha2State :=
  ⟨14680500436340154072, 7105036623409894663, 10473403895298186519,
   1526699215303891257, 7436329637833083697, 10282925794625328401,
   15784041429090275239, 5167115440072839076⟩

/-- SHA-512 / SHA-384 message padding: append `0x80`, zeros, and the
128-bit big-endian bit length, reaching a multiple of 128 bytes. -/
def sha512Pad (msg : List Nat) : List Nat :=
  let len := msg.length
  let zeros := (239 - len % 128) % 128
  msg ++ 0x80 :: List.replicate zeros 0 ++ beBytes 16 (len * 8)

/-- Big-endian 64-bit words from groups of 8 bytes. -/
def toWords64 (block : List Nat) : List Nat :=
  (chunkList 8 block).map (fun g => g.foldl (fun acc x => acc * 256 + x) 0)

def sha512SmallSigma0 (x : Nat) : Nat :=
  Nat.xor (Nat.xor (rotr64 x 1) (rotr64 x 8)) (x / 2 ^ 7)

def sha512SmallSigma1 (x : Nat) : Nat :=
  Nat.xor (Nat.xor (rotr64 x 19) (rotr64 x 61)) (x / 2 ^ 6)

def sha512BigSigma0 (x : Nat) : Nat :=
  Nat.xor (Nat.xor (rotr64 x 28) (rotr64 x 34)) (rotr64 x 39)

def sha512BigSigma1 (x : Nat) : Nat :=
  Nat.xor (Nat.xor (rotr64 x 14) (rotr64 x 18)) (rotr64 x 41)

/-- Extend the 16 block words with `count` further schedule words. -/
def sha512Extend : Nat → Array Nat → Array Nat
  | 0, w => w
  | count + 1, w =>
      let t := w.size
      let next := w64 (sha512SmallSigma1 (w.getD (t - 2) 0) + w.getD (t - 7) 0 +
        sha512SmallSigma0 (w.getD (t - 15) 0) + w.getD (t - 16) 0)
      sha512Extend count (w.push next)

def sha512Round (st : Sha2State) (kw : Nat × Nat) : Sha2State :=
  let t1 := w64 (st.h + sha512BigSigma1 st.e +
    Nat.xor (Nat.land st.e st.f) (Nat.land (not64 st.e) st.g) + kw.1 + kw.2)
  let t2 := w64 (sha512BigSigma0 st.a +
    Nat.xor (Nat.xor (Nat.land st.a st.b) (Nat.land st.a st.c)) (Nat.land st.b st.c))
  ⟨w64 (t1 + t2), st.a, st.b, st.c, w64 (st.d + t1), st.e, st.f, st.g⟩

def addState64 (x y : Sha2State) : Sha2State :=
  ⟨w64 (x.a + y.a), w64 (x.b + y.b), w64 (x.c + y.c), w64 (x.d + y.d),
   w64 (x.e + y.e), w64 (x.f + y.f), w64 (x.g + y.g), w64 (x.h + y.h)⟩

def sha512Block (st : Sha2State) (block : List Nat) : Sha2State :=
  let w := sha512Extend 64 (toWords64 block).toArray
  addState64 st ((sha512K.zip w.toList).foldl sha512Round st)

def sha512Core (iv : Sha2State) (msg : List Nat) : List Nat :=
  let st := (chunkList 128 (sha512Pad msg)).foldl sha512Block iv
  ([st.a, st.b, st.c, st.d, st.e, st.f, st.g, st.h].map (beBytes 8)).flatten

/-- SHA-512 digest (64 bytes) of a byte sequence. -/
def sha512 (msg : List Nat) : List Nat :=
  sha512Core sha512Init msg

/-- SHA-384 digest (48 bytes) of a byte sequence: SHA-512 with its own
initial value, truncated to the first six words. -/
def sha384 (msg : List Nat) : List Nat :=
  (sha512Core sha384Init msg).take 48

/-! ## OAuth errors

The source carries typed errors `oidc.NewError(code, description)` /
`issues.NewOAuthError(code, description)`; the codes are string
constants with the RFC 6749 wire values. -/

inductive ErrorCode
  | invalidRequest
  | invalidGrant
  | invalidClient
  | invalidScope
  | accessDenied
  | unauthorizedClient
  | internalError
deriving Repr, DecidableEq

structure OAuthErr where
  code : ErrorCode
  description : String
deriving Repr, DecidableEq

/-! ## String helpers (Go `strings` package and goidc helpers) -/

/-- Go `strings.Split(s, " ")`: split at every space, keeping empty
fields; `Split("", " ") = [""]`. -/
def goSplitSpace (s : String) : List String :=
  s.split (fun c => c = ' ')

/-- `SplitStringWithSpaces` (pkg/goidc): `strings.Split(s, " ")` when
`strings.ReplaceAll(strings.Trim(s, " "), " ", "")` is non-empty (that
is, when `s` holds any non-space character), else the empty slice. -/
def SplitStringWithSpaces (s : String) : List String :=
  if s.data.any (fun c => c ≠ ' ') then goSplitSpace s else []

/-- `ScopesContainsOpenID` (pkg/goidc): the split scopes contain
`ScopeOpenID.ID = "openid"`. -/
def ScopesContainsOpenID (scopes : String) : Bool :=
  (SplitStringWithSpaces scopes).contains "openid"

/-- `ScopesContainsOfflineAccess` (pkg/goidc): the split scopes contain
`ScopeOfflineAccess.ID = "offline_access"`. -/
def ScopesContainsOfflineAccess (scopes : String) : Bool :=
  (SplitStringWithSpaces scopes).contains "offline_access"

/-- Occurrence of `ns` inside `hs`, as Go `strings.Contains`. -/
def charsContains (hs ns : List Char) : Bool :=
  ns.isPrefixOf hs ||
    match hs with
    | [] => false
    | _ :: t => charsContains t ns

/-- Go `strings.Contains(s, subStr)`. -/
def goStringContains (s subStr : String) : Bool :=
  charsContains s.data subStr.data

/-! ## PKCE (C2)

`isPKCEValid` (token package, src/unnamed/part_013) and the identical
exported `IsPkceValid` (src/unnamed/part_021).  The code challenge
method constants carry the RFC 7636 wire values `plain` and `S256`
(`goidc.CodeChallengeMethodPlain` / `goidc.CodeChallengeMethodSHA256`;
their defining file is not under src, the values are the standard
ones also echoed by the spec's PKCE glossary entry). -/

def CodeChallengeMethodPlain : String := "plain"

def CodeChallengeMethodSHA256 : String := "S256"

/-- `hashBase64URLSHA256` / `GenerateBase64URLSHA256Hash`:
base64url (unpadded) of the SHA-256 digest of the string's bytes. -/
def hashBase64URLSHA256 (s : String) : String :=
  base64URLEncode (sha256 (strBytes s))

/-- `isPKCEValid(codeVerifier, codeChallenge, codeChallengeMethod)`:
`plain` compares the challenge with the verifier, `S256` compares the
challenge with the hashed verifier, any other method falls through to
`false`. -/
def isPKCEValid (codeVerifier codeChallenge codeChallengeMethod : String) : Bool :=
  if codeChallengeMethod = CodeChallengeMethodPlain then
    codeChallenge == codeVerifier
  else if codeChallengeMethod = CodeChallengeMethodSHA256 then
    codeChallenge == hashBase64URLSHA256 codeVerifier
  else
    false

/-! ## Half-hash claims (C9)

`HalfHashClaim(claimValue, idTokenAlgorithm)` (src/unnamed/part_021):
a `switch` on the jose signature algorithm (string constants `RS256`,
`ES256`, ... from go-jose) picks SHA-256/384/512; in the `default`
branch the local `hash` variable stays `nil` and the following
`hash.Write` call panics.  The panic is modelled as `none`. -/

def HalfHashClaim (claimValue idTokenAlgorithm : String) : Option String :=
  let hash? : Option (List Nat → List Nat) :=
    match idTokenAlgorithm with
    | "RS256" | "ES256" | "PS256" | "HS256" => some sha256
    | "RS384" | "ES384" | "PS384" | "HS384" => some sha384
    | "RS512" | "ES512" | "PS512" | "HS512" => some sha512
    | _ => none
  hash?.map fun hash =>
    -- hash.Sum(nil)[:hash.Size()/2]; the digest length equals hash.Size().
    let digest := hash (strBytes claimValue)
    base64URLEncode (digest.take (digest.length / 2))

/-! ## AuthorizationParameters.Merge (C3)

From pkg/goidc/grant_session.go.  Pointer fields (`MaxAuthnAgeSecs
*int`, `Claims *ClaimsObject`) and the nilable slice
`AuthorizationDetails` are modelled as `Option`; `none` is Go `nil`
(`some []` is a non-nil empty slice, which Go distinguishes from a nil
one). -/

structure ClaimObjectInfo where
  IsEssential : Bool
  Value : String
  Values : List String
deriving Repr, DecidableEq

structure ClaimsObject where
  UserInfo : List (String × ClaimObjectInfo)
  IDToken : List (String × ClaimObjectInfo)
deriving Repr, DecidableEq

/-- `AuthorizationDetail` is `map[string]any`; for the merge only nil
versus non-nil matters, so entries are kept as opaque key/value
pairs. -/
def AuthorizationDetail := List (String × String)
deriving instance Repr, DecidableEq for AuthorizationDetail

structure AuthorizationParameters where
  RequestURI : String := ""
  RequestObject : String := ""
  RedirectURI : String := ""
  ResponseMode : String := ""
  ResponseType : String := ""
  Scopes : String := ""
  State : String := ""
  Nonce : String := ""
  CodeChallenge : String := ""
  CodeChallengeMethod : String := ""
  Prompt : String := ""
  MaxAuthnAgeSecs : Option Int := none
  Display : String := ""
  ACRValues : String := ""
  Claims : Option ClaimsObject := none
  AuthorizationDetails : Option (List AuthorizationDetail) := none
deriving Repr, DecidableEq

/-- `nonEmptyOrDefault` for the string-kind fields:
`reflect.ValueOf(s1).String()` is the underlying string, so the test
is emptiness of `s1`. -/
def nonEmptyOrDefault (s1 s2 : String) : String :=
  if s1 = "" then s2 else s1

/-- `nonEmptyOrDefault` applied to the pointer field `MaxAuthnAgeSecs
*int`: `reflect.ValueOf(s1).String()` on a non-string kind yields the
placeholder `"<*int Value>"`, which is never empty, so `s1` is always
returned — nil or not. -/
def nonEmptyOrDefaultPtr (s1 _s2 : Option Int) : Option Int :=
  s1

/-- `nonNilOrDefault`: `reflect.ValueOf(s1).IsNil()` picks `s2` exactly
when `s1` is nil. -/
def nonNilOrDefault (s1 s2 : Option α) : Option α :=
  match s1 with
  | none => s2
  | some v => some v

/-- `AuthorizationParameters.Merge(outsideParams)`
(pkg/goidc/grant_session.go).  The struct literal never assigns
`RequestURI` and `RequestObject`, leaving them at their zero value. -/
def AuthorizationParameters.Merge (insideParams outsideParams : AuthorizationParameters) :
    AuthorizationParameters :=
  { RedirectURI := nonEmptyOrDefault insideParams.RedirectURI outsideParams.RedirectURI
    ResponseMode := nonEmptyOrDefault insideParams.ResponseMode outsideParams.ResponseMode
    ResponseType := nonEmptyOrDefault insideParams.ResponseType outsideParams.ResponseType
    Scopes := nonEmptyOrDefault insideParams.Scopes outsideParams.Scopes
    State := nonEmptyOrDefault insideParams.State outsideParams.State
    Nonce := nonEmptyOrDefault insideParams.Nonce outsideParams.Nonce
    CodeChallenge := nonEmptyOrDefault insideParams.CodeChallenge outsideParams.CodeChallenge
    CodeChallengeMethod :=
      nonEmptyOrDefault insideParams.CodeChallengeMethod outsideParams.CodeChallengeMethod
    Prompt := nonEmptyOrDefault insideParams.Prompt outsideParams.Prompt
    MaxAuthnAgeSecs :=
      nonEmptyOrDefaultPtr insideParams.MaxAuthnAgeSecs outsideParams.MaxAuthnAgeSecs
    Display := nonEmptyOrDefault insideParams.Display outsideParams.Display
    ACRValues := nonEmptyOrDefault insideParams.ACRValues outsideParams.ACRValues
    Claims := nonNilOrDefault insideParams.Claims outsideParams.Claims
    AuthorizationDetails :=
      nonNilOrDefault insideParams.AuthorizationDetails outsideParams.AuthorizationDetails }

/-- The merge the spec describes: for EVERY field, the inner value wins
when non-empty (non-nil for `Claims`, `AuthorizationDetails` and
`MaxAuthnAgeSecs`), else the outer value.  Stated from the spec's
words, for comparison with `AuthorizationParameters.Merge`. -/
def specMerge (insideParams outsideParams : AuthorizationParameters) :
    AuthorizationParameters :=
  { RequestURI := nonEmptyOrDefault insideParams.RequestURI outsideParams.RequestURI
    RequestObject := nonEmptyOrDefault insideParams.RequestObject outsideParams.RequestObject
    RedirectURI := nonEmptyOrDefault insideParams.RedirectURI outsideParams.RedirectURI
    ResponseMode := nonEmptyOrDefault insideParams.ResponseMode outsideParams.ResponseMode
    ResponseType := nonEmptyOrDefault insideParams.ResponseType outsideParams.ResponseType
    Scopes := nonEmptyOrDefault insideParams.Scopes outsideParams.Scopes
    State := nonEmptyOrDefault insideParams.State outsideParams.State
    Nonce := nonEmptyOrDefault insideParams.Nonce outsideParams.Nonce
    CodeChallenge := nonEmptyOrDefault insideParams.CodeChallenge outsideParams.CodeChallenge
    CodeChallengeMethod :=
      nonEmptyOrDefault insideParams.CodeChallengeMethod outsideParams.CodeChallengeMethod
    Prompt := nonEmptyOrDefault insideParams.Prompt outsideParams.Prompt
    MaxAuthnAgeSecs :=
      nonNilOrDefault insideParams.MaxAuthnAgeSecs outsideParams.MaxAuthnAgeSecs
    Display := nonEmptyOrDefault insideParams.Display outsideParams.Display
    ACRValues := nonEmptyOrDefault insideParams.ACRValues outsideParams.ACRValues
    Claims := nonNilOrDefault insideParams.Claims outsideParams.Claims
    AuthorizationDetails :=
      nonNilOrDefault insideParams.AuthorizationDetails outsideParams.AuthorizationDetails }

/-! ## Client scopes (C10)

`Client.AreScopesAllowed(availableScopes, requestedScopes)` from
src/unnamed/part_004.  A `Scope` pairs an id with a matching
predicate (`goidc.ScopeMatchingFunc`). -/

structure Scope where
  ID : String
  Matches : String → Bool

structure Client where
  ID : String
  Scopes : String
  GrantTypes : List String
  Secret : String := ""
deriving Repr, DecidableEq

/-- `Client.IsGrantTypeAllowed` (src/unnamed/part_004):
`slices.Contains(c.GrantTypes, grantType)`. -/
def Client.IsGrantTypeAllowed (c : Client) (grantType : String) : Bool :=
  c.GrantTypes.contains grantType

/-- `Client.AreScopesAllowed` (src/unnamed/part_004): an empty request
is accepted outright; otherwise the available scopes are filtered by
`strings.Contains(c.Scopes, scope.ID)` and every entry of
`strings.Split(requestedScopes, " ")` must match one of them. -/
def Client.AreScopesAllowed (c : Client) (availableScopes : List Scope)
    (requestedScopes : String) : Bool :=
  if requestedScopes = "" then
    true
  else
    let clientScopes := availableScopes.filter fun scope =>
      goStringContains c.Scopes scope.ID
    (goSplitSpace requestedScopes).all fun requestedScope =>
      clientScopes.any fun scope => scope.Matches requestedScope

/-! ## Client assertion lifetime check (C6)

`areAssertionClaimsValid(ctx, client, claims, maxLifetimeSecs)` from
src/unnamed/part_015.  `claims.Expiry` and `claims.IssuedAt` are
`*jwt.NumericDate` (seconds); absent claims are `nil`, modelled as
`none`.  The issuer/subject/audience validation performed afterwards by
`claims.ValidateWithLeeway` exercises the external go-jose library and
enters as the boolean outcome `leewayValidationOK`. -/

/-- `int64(expiry.Time().Sub(issuedAt.Time()).Seconds())` for
NumericDate inputs: Go `time.Time.Sub` saturates at the
`time.Duration` (int64 nanoseconds) bounds, and the float seconds are
then truncated toward zero. -/
def goSubSeconds (expiry issuedAt : Int) : Int :=
  let maxDurationNanos : Int := 9223372036854775807
  let minDurationNanos : Int := -9223372036854775808
  let dNanos := (expiry - issuedAt) * 1000000000
  let clamped :=
    if dNanos > maxDurationNanos then maxDurationNanos
    else if dNanos < minDurationNanos then minDurationNanos
    else dNanos
  Int.tdiv clamped 1000000000

/-- `areAssertionClaimsValid`: both time claims must be present and
their difference must not exceed `maxLifetimeSecs`, else
`invalid_client`; then the go-jose `ValidateWithLeeway` check runs. -/
def areAssertionClaimsValid (expiry issuedAt : Option Int)
    (leewayValidationOK : Bool) (maxLifetimeSecs : Int) : Option OAuthErr :=
  match expiry, issuedAt with
  | some e, some i =>
      if goSubSeconds e i > maxLifetimeSecs then
        some ⟨.invalidClient, "invalid time claim in the assertion"⟩
      else if ¬ leewayValidationOK then
        some ⟨.invalidClient, "invalid assertion"⟩
      else
        none
  | _, _ => some ⟨.invalidClient, "invalid time claim in the assertion"⟩

/-! ## Authorization code expiry (C7)

Three generations of the token handler are in the tree.  The constant
is shared: `AuthorizationCodeLifetimeSecs = 60` (unit/constants). -/

def AuthorizationCodeLifetimeSecs : Int := 60

/-- Modelled from the spec: `AuthnSession.IsAuthorizationCodeExpired`
(called from src/unnamed/part_007; its defining file is not under
src).  The spec bounds a code's age by the 60 s authorization-code
lifetime, and the sibling `GrantSession.IsRefreshSessionExpired`
(pkg/goidc/grant_session.go) realises expiry as `now > deadline`. -/
def isAuthorizationCodeExpired (authorizedAt now : Int) : Bool :=
  now > authorizedAt + AuthorizationCodeLifetimeSecs

/-- The part_007 expiry branch of
`validateAuthorizationCodeGrantRequest`: an expired code is rejected
with `invalid_grant`. -/
def authzCodeExpiryCheckP007 (authorizedAt now : Int) : Option OAuthErr :=
  if isAuthorizationCodeExpired authorizedAt now then
    some ⟨.invalidGrant, "the authorization code is expired"⟩
  else
    none

/-- The part_017 expiry branch of
`validateAuthorizationCodeGrantRequest`:
`session.AuthorizedAtTimestamp + AuthorizationCodeLifetimeSecs >
unit.GetTimestampNow()` triggers the error "the authorization code is
expired" with code `invalid_request`. -/
def authzCodeExpiryCheckP017 (authorizedAt now : Int) : Option OAuthErr :=
  if authorizedAt + AuthorizationCodeLifetimeSecs > now then
    some ⟨.invalidRequest, "the authorization code is expired"⟩
  else
    none

/-! ## PKCE validation on the token request (C8)

`validatePkce(ctx, req, client, session)` from src/unnamed/part_013. -/

/-- `validatePkce`: RFC 7636 length bounds on a non-empty verifier
first, then — with the method defaulted to `plain` and forced to
`S256` under FAPI 2.0 — the challenge comparison when the session
carries a challenge and PKCE is enabled. -/
def validatePkce (pkceIsEnabled profileIsFAPI2 : Bool) (codeVerifier : String)
    (sessionCodeChallenge sessionCodeChallengeMethod : String) : Option OAuthErr :=
  let codeVerifierLengh := goStrLen codeVerifier
  if codeVerifier ≠ "" ∧ (codeVerifierLengh < 43 ∨ 128 < codeVerifierLengh) then
    some ⟨.invalidRequest, "invalid code verifier"⟩
  else
    let codeChallengeMethod :=
      if sessionCodeChallengeMethod = "" then CodeChallengeMethodPlain
      else sessionCodeChallengeMethod
    let codeChallengeMethod :=
      if profileIsFAPI2 then CodeChallengeMethodSHA256 else codeChallengeMethod
    if pkceIsEnabled ∧ sessionCodeChallenge ≠ "" ∧
        (codeVerifier = "" ∨
          ¬ isPKCEValid codeVerifier sessionCodeChallenge codeChallengeMethod) then
      some ⟨.invalidGrant, "invalid pkce"⟩
    else
      none

/-! ## Client identification (C4)

`getClientID(ctx, req)` from src/unnamed/part_015.  The client
assertion is a JWT handled by go-jose; its parsing is embedded as an
oracle `parse : String → JWTParseOutcome` mirroring the possible
outcomes of `jwt.ParseSigned` and
`UnsafeClaimsWithoutVerification`. -/

/-- A decoded JSON claim value (`map[string]any` entry): only the
string case is usable as a client id. -/
inductive ClaimValue
  | str (s : String)
  | nonString
deriving Repr, DecidableEq

inductive JWTParseOutcome
  /-- `jwt.ParseSigned` failed. -/
  | parseError
  /-- `UnsafeClaimsWithoutVerification` failed. -/
  | claimsError
  /-- The unverified claims map. -/
  | parsed (claims : List (String × ClaimValue))
deriving Repr, DecidableEq

/-- `getClientIDFromAssertion`: parse, extract the claims without
verification, and read the `iss` claim, which must be a string. -/
def getClientIDFromAssertion (parse : String → JWTParseOutcome)
    (assertion : String) : Option String :=
  match parse assertion with
  | .parseError => none
  | .claimsError => none
  | .parsed claims =>
      match claims.lookup "iss" with
      | none => none
      | some (.str clientIDAsString) => some clientIDAsString
      | some .nonString => none

structure ClientAuthnRequest where
  ClientID : String
  ClientAssertion : String
deriving Repr, DecidableEq

/-- `appendClientIDFromAssertion`: no assertion leaves the candidates
unchanged; an assertion whose issuer cannot be extracted fails the
identification (`none`); otherwise the extracted issuer is appended —
even when it is the empty string. -/
def appendClientIDFromAssertion (parse : String → JWTParseOutcome)
    (clientIDs : List String) (req : ClientAuthnRequest) : Option (List String) :=
  if req.ClientAssertion = "" then
    some clientIDs
  else
    match getClientIDFromAssertion parse req.ClientAssertion with
    | none => none
    | some assertionClientID => some (clientIDs ++ [assertionClientID])

/-- `allEquals` (src/unnamed/part_015): vacuously true on the empty
list, else every element equals the first. -/
def allEquals (values : List String) : Bool :=
  match values with
  | [] => true
  | v :: _ => values.all fun value => value = v

/-- `getClientID`: collect the form `client_id` and the HTTP Basic
username when non-empty, append the assertion issuer, and succeed with
the first candidate exactly when the list is non-empty and all
candidates are equal. -/
def getClientID (parse : String → JWTParseOutcome) (basicClientID : String)
    (req : ClientAuthnRequest) : Option String :=
  let clientIDs := (if req.ClientID ≠ "" then [req.ClientID] else []) ++
    (if basicClientID ≠ "" then [basicClientID] else [])
  match appendClientIDFromAssertion parse clientIDs req with
  | none => none
  | some clientIDs =>
      -- `len(clientIDs) == 0 || !allEquals(clientIDs)` fails; else `clientIDs[0]`.
      match clientIDs with
      | [] => none
      | c :: rest => if allEquals (c :: rest) then some c else none

/-- The candidate list the identification works on, for stating the
characterization of `getClientID`. -/
def identificationCandidates (parse : String → JWTParseOutcome)
    (basicClientID : String) (req : ClientAuthnRequest) : Option (List String) :=
  appendClientIDFromAssertion parse
    ((if req.ClientID ≠ "" then [req.ClientID] else []) ++
      (if basicClientID ≠ "" then [basicClientID] else [])) req

/-! ## /authorize with a PAR request_uri (C5)

`initValidAuthenticationSessionWithPAR` and
`validateAuthorizeWithPARParams` from src/unnamed/part_018, together
with the surrounding `InitAuthentication` / `authenticate` /
`updateOrDeleteSession` flow from the same file.  The host-supplied
authentication-policy steps are embedded as an oracle describing the
terminal step the loop stops at. -/

def PARLifetimeSecs : Int := 60

structure AuthnSessionPAR where
  Id : String
  ClientId : String
  RequestUri : String
  CallbackId : String
  StepId : String
  CreatedAtTimestamp : Int
  ResponseType : String
  RedirectUri : String
  Scope : String
  State : String
deriving Repr, DecidableEq

structure AuthorizeRequest where
  ClientId : String
  RequestUri : String
  RedirectUri : String
  Scope : String
  ResponseType : String
  State : String
deriving Repr, DecidableEq

/-- The AuthnSession store of the old flow, keyed by session id with a
request-URI secondary index. -/
abbrev ParStore := List AuthnSessionPAR

def getByRequestUri (store : ParStore) (requestUri : String) : Option AuthnSessionPAR :=
  store.find? fun session => session.RequestUri = requestUri

def parStoreDelete (store : ParStore) (id : String) : ParStore :=
  store.filter fun session => session.Id ≠ id

def parStoreCreateOrUpdate (store : ParStore) (session : AuthnSessionPAR) : ParStore :=
  session :: parStoreDelete store session.Id

/-- `validateAuthorizeWithPARParams(session, req)`: lifetime, client
ownership, and the requirement that the query parameters be empty when
a `request_uri` is used. -/
def validateAuthorizeWithPARParams (now : Int) (session : AuthnSessionPAR)
    (req : AuthorizeRequest) : Option OAuthErr :=
  if now > session.CreatedAtTimestamp + PARLifetimeSecs then
    some ⟨.invalidRequest, "the request uri expired"⟩
  else if session.ClientId ≠ req.ClientId then
    some ⟨.accessDenied, "invalid client"⟩
  else if ¬ ([req.RedirectUri, req.Scope, req.ResponseType, req.State].all (· = "")) then
    some ⟨.invalidRequest, "invalid parameter when using PAR"⟩
  else
    none

/-- `initValidAuthenticationSessionWithPAR(ctx, req)`: fetch by
request URI, delete the session when validation fails, and blank the
session's `RequestUri` on success so it "can't be used again".  The
store's not-found error is surfaced as `invalid_request`
("invalid request_uri"), the mapping written out in
`getSessionCreatedWithPar` (internal/oauth/authorize/session.go). -/
def initValidAuthenticationSessionWithPAR (store : ParStore) (req : AuthorizeRequest)
    (now : Int) (newCallbackId : String) :
    Except OAuthErr AuthnSessionPAR × ParStore :=
  match getByRequestUri store req.RequestUri with
  | none => (.error ⟨.invalidRequest, "invalid request_uri"⟩, store)
  | some session =>
      match validateAuthorizeWithPARParams now session req with
      | some err => (.error err, parStoreDelete store session.Id)
      | none =>
          (.ok { session with RequestUri := "", CallbackId := newCallbackId }, store)

/-- Terminal outcome of the policy-step loop inside `authenticate`
(src/unnamed/part_018): the loop stops at `FinishFlowWithFailureStep`,
at `FinishFlowSuccessfullyStep`, or at an intermediate step whose
`AuthnFunc` reported `InProgress`. -/
inductive AuthnLoopStop
  | failureStep
  | successStep
  | intermediateStep (stepId : String)
deriving Repr, DecidableEq

/-- Modelled from the spec: `unit.ResponseContainsCode` (not under
src): a `code` response type, alone or combined, requests an
authorization code. -/
def ResponseContainsCode (responseType : String) : Bool :=
  (goSplitSpace responseType).contains "code"

/-- `updateOrDeleteSession(ctx, session, currentStep)`: the session is
deleted at terminal failure, deleted at terminal success without a
`code` response type, and otherwise written back (the PAR path writes
it back with its `RequestUri` already blanked). -/
def updateOrDeleteSession (store : ParStore) (session : AuthnSessionPAR)
    (stop : AuthnLoopStop) : ParStore :=
  match stop with
  | .failureStep => parStoreDelete store session.Id
  | .successStep =>
      if ¬ ResponseContainsCode session.ResponseType then
        parStoreDelete store session.Id
      else
        parStoreCreateOrUpdate store session
  | .intermediateStep stepId =>
      parStoreCreateOrUpdate store { session with StepId := stepId }

/-- Errors surfacing from `InitAuthentication`: OAuth errors from the
validation, or the bare "no policy available" error. -/
inductive AuthorizeFlowErr
  | oauth (err : OAuthErr)
  | noPolicyAvailable
deriving Repr, DecidableEq

/-- `InitAuthentication(ctx, req)` on the `request_uri` branch: init
the session from the PAR store, pick a policy (host-supplied; its
availability and the step the authentication loop stops at are oracle
inputs), run `authenticate` and persist its outcome. -/
def initAuthenticationWithPAR (store : ParStore) (req : AuthorizeRequest) (now : Int)
    (newCallbackId : String) (policyAvailable : Bool) (stop : AuthnLoopStop) :
    Except AuthorizeFlowErr Unit × ParStore :=
  match initValidAuthenticationSessionWithPAR store req now newCallbackId with
  | (.error err, store) => (.error (.oauth err), store)
  | (.ok session, store) =>
      if ¬ policyAvailable then
        (.error .noPolicyAvailable, store)
      else
        (.ok (), updateOrDeleteSession store session stop)

/-! ## Authorization-code redemption (C1)

`handleAuthorizationCodeGrantTokenCreation`,
`getSessionByAuthorizationCode`, `validateAuthorizationCodeGrantRequest`
and `newAuthorizationCodeGrantOptions` from src/unnamed/part_013,
`NewGrantSession` from src/unnamed/part_021.  The session fetch runs in
a goroutine concurrent with client authentication; the goroutine
deletes the session before sending it on the channel, and the handler
only afterwards writes the grant session, so the sequential embedding
performs the store operations in that order and records them in an
event trace. -/

structure AuthnSession where
  ID : String
  ClientID : String
  AuthorizationCode : String
  RedirectURI : String
  Scopes : String
  CodeChallenge : String
  CodeChallengeMethod : String
  AuthorizationDetails : List AuthorizationDetail := []
  Subject : String := ""
  GrantedScopes : String := ""
  GrantedAuthorizationDetails : List AuthorizationDetail := []
  ExpiresAtTimestamp : Int := 0
deriving Repr, DecidableEq

/-- Modelled from the spec: `AuthnSession.IsExpired` (called from
src/unnamed/part_013; its defining file is not under src).  The
session expires at `expires_at`, realised as `now > expires_at` like
`GrantSession.IsRefreshSessionExpired`
(pkg/goidc/grant_session.go). -/
def AuthnSession.IsExpired (session : AuthnSession) (now : Int) : Bool :=
  now > session.ExpiresAtTimestamp

structure TokenOptions where
  TokenFormat : String := ""
  TokenLifetimeSecs : Int := 0
deriving Repr, DecidableEq

structure GrantOptions where
  GrantType : String
  Subject : String
  ClientID : String
  GrantedScopes : String
  GrantedAuthorizationDetails : List AuthorizationDetail := []
  TokenOptions : TokenOptions
deriving Repr, DecidableEq

structure Token where
  ID : String
  Value : String
  /-- The Go field is named `Type` (a Lean keyword). -/
  Typ : String
  JWKThumbprint : String := ""
  CertificateThumbprint : String := ""
deriving Repr, DecidableEq

structure GrantSession where
  ID : String
  TokenID : String
  JWKThumbprint : String := ""
  ClientCertificateThumbprint : String := ""
  RefreshToken : String := ""
  CreatedAtTimestamp : Int
  LastTokenIssuedAtTimestamp : Int
  ExpiresAtTimestamp : Int
  ActiveScopes : String
  GrantOptions : GrantOptions
deriving Repr, DecidableEq

/-- `NewGrantSession(grantOptions, token)` (src/unnamed/part_021); the
fresh uuid and the clock are inputs. -/
def NewGrantSession (grantOptions : GrantOptions) (token : Token)
    (newID : String) (timestampNow : Int) : GrantSession :=
  { ID := newID
    TokenID := token.ID
    JWKThumbprint := token.JWKThumbprint
    ClientCertificateThumbprint := token.CertificateThumbprint
    CreatedAtTimestamp := timestampNow
    LastTokenIssuedAtTimestamp := timestampNow
    ExpiresAtTimestamp := timestampNow + grantOptions.TokenOptions.TokenLifetimeSecs
    ActiveScopes := grantOptions.GrantedScopes
    GrantOptions := grantOptions }

/-- The two repository stores touched during redemption. -/
structure StoreState where
  authnSessions : List AuthnSession
  grantSessions : List GrantSession
deriving Repr, DecidableEq

/-- Store mutations, in the order they are issued. -/
inductive StoreEvent
  | deleteAuthnSession (id : String)
  | saveGrantSession (id : String)
deriving Repr, DecidableEq

/-- `ctx.AuthnSessionByAuthorizationCode`: first session carrying the
code. -/
def lookupByAuthorizationCode (s : StoreState) (authorizationCode : String) :
    Option AuthnSession :=
  s.authnSessions.find? fun session => session.AuthorizationCode = authorizationCode

/-- `ctx.DeleteAuthnSession(id)`. -/
def deleteAuthnSession (s : StoreState) (id : String) : StoreState :=
  { s with authnSessions := s.authnSessions.filter fun session => session.ID ≠ id }

/-- `ctx.SaveGrantSession` (create-or-update keyed by id). -/
def saveGrantSession (s : StoreState) (grantSession : GrantSession) : StoreState :=
  { s with grantSessions :=
      grantSession :: s.grantSessions.filter fun gs => gs.ID ≠ grantSession.ID }

structure tokenRequest where
  AuthorizationCode : String
  RedirectURI : String
  CodeVerifier : String
  Scopes : String
deriving Repr, DecidableEq

structure tokenResponse where
  AccessToken : String
  ExpiresIn : Int
  TokenType : String
  RefreshToken : String := ""
  IDToken : String := ""
  Scopes : String := ""
  AuthorizationDetails : List AuthorizationDetail := []
deriving Repr, DecidableEq

/-- Per-request context for the authorization-code grant handler.
Collaborators that live outside this flow enter as oracle values: the
client authentication multiplexer (`authn.Client`), the host
`TokenOptions` hook, the signing-dependent `Make` / `MakeIDToken`, the
random refresh token and grant-session id, and — modelled from the
spec, their defining file being absent from src — the outcome of the
token-binding validators `validateTokenBindingIsRequired` /
`validateTokenBindingRequestWithDPoP`. -/
structure TokenCtx where
  now : Int
  pkceIsEnabled : Bool
  profileIsFAPI2 : Bool
  authorizationDetailsParameterIsEnabled : Bool
  refreshTokenLifetimeSecs : Int
  clientAuthnResult : Except OAuthErr Client
  tokenOptionsResult : Except String TokenOptions
  makeTokenResult : Except OAuthErr Token
  makeIDTokenResult : Except OAuthErr String
  bindingCheckResult : Option OAuthErr
  newGrantSessionID : String
  newRefreshToken : Except String String

/-- `getSessionByAuthorizationCode(ctx, authorizationCode, ch)`: a
missing session surfaces as `invalid_grant`; a found session is
deleted before it is handed back, preventing replay.  (On the missing
branch the goroutine falls through and issues a delete for the
zero-value session id after sending the error; the handler has already
received the error, and no stored session carries that id.) -/
def getSessionByAuthorizationCode (s : StoreState) (authorizationCode : String) :
    Except OAuthErr AuthnSession × StoreState × List StoreEvent :=
  match lookupByAuthorizationCode s authorizationCode with
  | none => (.error ⟨.invalidGrant, "invalid authorization code"⟩, s, [])
  | some session =>
      (.ok session, deleteAuthnSession s session.ID, [.deleteAuthnSession session.ID])

/-- `validateAuthorizationCodeGrantRequest(ctx, req, client, session)`
(src/unnamed/part_013). -/
def validateAuthorizationCodeGrantRequest (ctx : TokenCtx) (req : tokenRequest)
    (client : Client) (session : AuthnSession) : Option OAuthErr :=
  if ¬ client.IsGrantTypeAllowed "authorization_code" then
    some ⟨.unauthorizedClient, "invalid grant type"⟩
  else if session.ClientID ≠ client.ID then
    some ⟨.invalidGrant, "the authorization code was not issued to the client"⟩
  else if session.IsExpired ctx.now then
    some ⟨.invalidGrant, "the authorization code is expired"⟩
  else if session.RedirectURI ≠ req.RedirectURI then
    some ⟨.invalidGrant, "invalid redirect_uri"⟩
  else
    match validatePkce ctx.pkceIsEnabled ctx.profileIsFAPI2 req.CodeVerifier
        session.CodeChallenge session.CodeChallengeMethod with
    | some err => some err
    | none => ctx.bindingCheckResult

/-- `newAuthorizationCodeGrantOptions(ctx, req, client, session)`: the
host hook failure surfaces as `access_denied`. -/
def newAuthorizationCodeGrantOptions (ctx : TokenCtx) (session : AuthnSession) :
    Except OAuthErr GrantOptions :=
  match ctx.tokenOptionsResult with
  | .error msg => .error ⟨.accessDenied, msg⟩
  | .ok tokenOptions =>
      .ok { GrantType := "authorization_code"
            GrantedScopes := session.GrantedScopes
            Subject := session.Subject
            ClientID := session.ClientID
            TokenOptions := tokenOptions
            GrantedAuthorizationDetails :=
              if ctx.authorizationDetailsParameterIsEnabled then
                session.GrantedAuthorizationDetails
              else
                [] }

/-- `generateAuthorizationCodeGrantSession(ctx, token, grantOptions)`:
build the grant session, extend it with a refresh token when
`offline_access` was granted, and save it. -/
def generateAuthorizationCodeGrantSession (ctx : TokenCtx) (s : StoreState)
    (token : Token) (grantOptions : GrantOptions) :
    Except OAuthErr GrantSession × StoreState × List StoreEvent :=
  let grantSession := NewGrantSession grantOptions token ctx.newGrantSessionID ctx.now
  if ScopesContainsOfflineAccess grantSession.GrantOptions.GrantedScopes then
    match ctx.newRefreshToken with
    | .error msg => (.error ⟨.internalError, msg⟩, s, [])
    | .ok refreshToken =>
        let grantSession := { grantSession with
          RefreshToken := refreshToken
          ExpiresAtTimestamp := ctx.now + ctx.refreshTokenLifetimeSecs }
        (.ok grantSession, saveGrantSession s grantSession,
         [.saveGrantSession grantSession.ID])
  else
    (.ok grantSession, saveGrantSession s grantSession,
     [.saveGrantSession grantSession.ID])

/-- `handleAuthorizationCodeGrantTokenCreation(ctx, req)`
(src/unnamed/part_013), with the store threaded explicitly and every
store mutation recorded.  The session fetch runs in a goroutine whose
store effect (the delete of a found session) precedes its channel
send and therefore happens whatever `authn.Client` returns, while the
handler checks `authn.Client`'s error BEFORE receiving from the
channel — so a failing client authentication takes precedence over
the session-fetch error. -/
def handleAuthorizationCodeGrantTokenCreation (ctx : TokenCtx) (s : StoreState)
    (req : tokenRequest) :
    Except OAuthErr tokenResponse × StoreState × List StoreEvent :=
  if req.AuthorizationCode = "" then
    (.error ⟨.invalidRequest, "invalid authorization code"⟩, s, [])
  else
    match getSessionByAuthorizationCode s req.AuthorizationCode with
    | (sessionResult, s, events) =>
        match ctx.clientAuthnResult with
        | .error err => (.error err, s, events)
        | .ok client =>
            match sessionResult with
            | .error err => (.error err, s, events)
            | .ok session =>
                match validateAuthorizationCodeGrantRequest ctx req client session with
                | some err => (.error err, s, events)
                | none =>
                    match newAuthorizationCodeGrantOptions ctx session with
                    | .error err => (.error err, s, events)
                    | .ok grantOptions =>
                        match ctx.makeTokenResult with
                        | .error err => (.error err, s, events)
                        | .ok token =>
                            match generateAuthorizationCodeGrantSession ctx s token
                                grantOptions with
                            | (.error err, s, genEvents) =>
                                (.error err, s, events ++ genEvents)
                            | (.ok grantSession, s, genEvents) =>
                                let resp : tokenResponse :=
                                  { AccessToken := token.Value
                                    ExpiresIn := grantOptions.TokenOptions.TokenLifetimeSecs
                                    TokenType := token.Typ
                                    RefreshToken := grantSession.RefreshToken
                                    Scopes :=
                                      if session.Scopes ≠ grantOptions.GrantedScopes then
                                        grantOptions.GrantedScopes
                                      else
                                        ""
                                    AuthorizationDetails :=
                                      if session.AuthorizationDetails ≠
                                          grantOptions.GrantedAuthorizationDetails then
                                        grantOptions.GrantedAuthorizationDetails
                                      else
                                        [] }
                                if ScopesContainsOpenID session.GrantedScopes then
                                  match ctx.makeIDTokenResult with
                                  | .error err => (.error err, s, events ++ genEvents)
                                  | .ok idToken =>
                                      (.ok { resp with IDToken := idToken }, s,
                                       events ++ genEvents)
                                else
                                  (.ok resp, s, events ++ genEvents)

/-- A sequence of later `/token` authorization_code calls, each with
its own context, applied to the evolving store; the outcome of each
call is paired with its input. -/
def redeemSeq (s : StoreState) :
    List (TokenCtx × tokenRequest) →
    List (Except OAuthErr tokenResponse × TokenCtx × tokenRequest)
  | [] => []
  | (ctx, req) :: rest =>
      let step := handleAuthorizationCodeGrantTokenCreation ctx s req
      (step.1, ctx, req) :: redeemSeq step.2.1 rest

/-! ## Digest lengths -/

theorem beBytes_length (k v : Nat) : (beBytes k v).length = k := by
  induction k generalizing v with
  | zero => rfl
  | succ k ih => simp [beBytes, ih]

theorem sha256_length (msg : List Nat) : (sha256 msg).length = 32 := by
  simp [sha256, beBytes_length]

theorem sha512Core_length (iv : Sha2State) (msg : List Nat) :
    (sha512Core iv msg).length = 64 := by
  simp [sha512Core, beBytes_length]

theorem sha512_length (msg : List Nat) : (sha512 msg).length = 64 := by
  simp [sha512, sha512Core_length]

theorem sha384_length (msg : List Nat) : (sha384 msg).length = 48 := by
  simp [sha384, sha512Core_length]

end Goidc

namespace Goidc

set_option maxRecDepth 100000

/-! ## Claim theorems -/

/-- C10: `Client.AreScopesAllowed` returns `true` on an empty requested
scopes string, for every client and every available-scope catalogue,
without consulting the client's registered scopes or the server's
scope predicates. -/
theorem areScopesAllowed_empty_request (c : Client) (availableScopes : List Scope) :
    c.AreScopesAllowed availableScopes "" = true := by
  simp [Client.AreScopesAllowed]

/-- C2: the PKCE validation step accepts `(verifier, challenge)` under
`S256` exactly when the challenge is the unpadded base64url encoding
of the SHA-256 hash of the verifier, under `plain` exactly when the
challenge equals the verifier, and rejects under every other
method. -/
theorem isPKCEValid_round_trip (codeVerifier codeChallenge : String) :
    (isPKCEValid codeVerifier codeChallenge CodeChallengeMethodSHA256 = true ↔
      codeChallenge = base64URLEncode (sha256 (strBytes codeVerifier))) ∧
    (isPKCEValid codeVerifier codeChallenge CodeChallengeMethodPlain = true ↔
      codeChallenge = codeVerifier) ∧
    (∀ method : String, method ≠ CodeChallengeMethodPlain →
      method ≠ CodeChallengeMethodSHA256 →
      isPKCEValid codeVerifier codeChallenge method = false) := by
  refine ⟨?_, ?_, ?_⟩
  · simp [isPKCEValid, CodeChallengeMethodSHA256, CodeChallengeMethodPlain,
      hashBase64URLSHA256]
  · simp [isPKCEValid, CodeChallengeMethodPlain]
  · intro method h1 h2
    simp [isPKCEValid, h1, h2]

/-- Witness for C2 at the repository's own PKCE test vector
(src/unnamed/part_020) and at the unsupported method `EdDSA`. -/
theorem isPKCEValid_round_trip_witness :
    isPKCEValid "4ea55634198fb6a0c120d46b26359cf50ccea86fd03302b9bca9fa98"
      "ZObPYv2iA-CObk06I1Z0q5zWRG7gbGjZEWLX5ZC6rjQ" CodeChallengeMethodSHA256 = true ∧
    isPKCEValid "179de59c7146cbb47757e7bc796c9b21d4a2be62535c4f577566816a"
      "179de59c7146cbb47757e7bc796c9b21d4a2be62535c4f577566816a"
      CodeChallengeMethodPlain = true ∧
    isPKCEValid "any_verifier" "any_challenge" "EdDSA" = false := by
  refine ⟨?_, ?_, ?_⟩
  · exact (isPKCEValid_round_trip _ _).1.mpr (by decide)
  · exact (isPKCEValid_round_trip _ _).2.1.mpr rfl
  · exact (isPKCEValid_round_trip "any_verifier" "any_challenge").2.2 "EdDSA"
      (by decide) (by decide)

/-- C9: the half-hash helper returns the base64url (unpadded) encoding
of the left half of the SHA-256, SHA-384 or SHA-512 digest for the
twelve `*256`/`*384`/`*512` signing algorithms, and for every other
algorithm the `nil` hash makes the subsequent `Write` panic (modelled
as `none`). -/
theorem halfHashClaim_characterization (claimValue : String) :
    (∀ alg, alg ∈ (["RS256", "ES256", "PS256", "HS256"] : List String) →
      HalfHashClaim claimValue alg =
        some (base64URLEncode ((sha256 (strBytes claimValue)).take 16))) ∧
    (∀ alg, alg ∈ (["RS384", "ES384", "PS384", "HS384"] : List String) →
      HalfHashClaim claimValue alg =
        some (base64URLEncode ((sha384 (strBytes claimValue)).take 24))) ∧
    (∀ alg, alg ∈ (["RS512", "ES512", "PS512", "HS512"] : List String) →
      HalfHashClaim claimValue alg =
        some (base64URLEncode ((sha512 (strBytes claimValue)).take 32))) ∧
    (∀ alg, alg ∉ (["RS256", "ES256", "PS256", "HS256",
        "RS384", "ES384", "PS384", "HS384",
        "RS512", "ES512", "PS512", "HS512"] : List String) →
      HalfHashClaim claimValue alg = none) := by
  refine ⟨?_, ?_, ?_, ?_⟩
  · intro alg h
    simp only [List.mem_cons, List.not_mem_nil, or_false] at h
    rcases h with h | h | h | h <;> subst h <;>
      simp [HalfHashClaim, sha256_length]
  · intro alg h
    simp only [List.mem_cons, List.not_mem_nil, or_false] at h
    rcases h with h | h | h | h <;> subst h <;>
      simp [HalfHashClaim, sha384_length]
  · intro alg h
    simp only [List.mem_cons, List.not_mem_nil, or_false] at h
    rcases h with h | h | h | h <;> subst h <;>
      simp [HalfHashClaim, sha512_length]
  · intro alg h
    simp only [List.mem_cons, List.not_mem_nil, or_false, not_or] at h
    obtain ⟨h1, h2, h3, h4, h5, h6, h7, h8, h9, h10, h11, h12⟩ := h
    simp [HalfHashClaim]

/-- Witness for C9 at one algorithm of each family and at `EdDSA`,
which the source's `default` branch leaves with a `nil` hash. -/
theorem halfHashClaim_witness :
    HalfHashClaim "token_value" "ES384" =
      some (base64URLEncode ((sha384 (strBytes "token_value")).take 24)) ∧
    HalfHashClaim "token_value" "EdDSA" = none := by
  constructor
  · exact (halfHashClaim_characterization "token_value").2.1 "ES384" (by decide)
  · exact (halfHashClaim_characterization "token_value").2.2.2 "EdDSA" (by decide)

/-- C7: the part_017 generation of
`validateAuthorizationCodeGrantRequest` inverts the expiry comparison:
a fresh authorization code (issued at the current instant, age `0 ≤
60 s`) is rejected as "the authorization code is expired" — with
`invalid_request`, not `invalid_grant` — while a 120 s old code passes
the check; the part_007 check (with the expiry predicate the spec and
the sibling `GrantSession` code describe) does the opposite. -/
theorem authzCodeExpiry_part017_inverted :
    authzCodeExpiryCheckP017 1000 1000 =
      some ⟨.invalidRequest, "the authorization code is expired"⟩ ∧
    authzCodeExpiryCheckP017 880 1000 = none ∧
    authzCodeExpiryCheckP007 1000 1000 = none ∧
    authzCodeExpiryCheckP007 880 1000 =
      some ⟨.invalidGrant, "the authorization code is expired"⟩ ∧
    isAuthorizationCodeExpired 1000 1000 = false ∧
    isAuthorizationCodeExpired 880 1000 = true := by
  decide

/-- C8 counterexample: an empty `code_verifier` has length `0 < 43`,
yet `validatePkce` does not reject it with `invalid_request`: with a
stored challenge it rejects with `invalid_grant`, and without one it
passes. -/
theorem validatePkce_empty_verifier_counterexample :
    goStrLen "" < 43 ∧
    validatePkce true false "" "ZObPYv2iA-CObk06I1Z0q5zWRG7gbGjZEWLX5ZC6rjQ"
      CodeChallengeMethodSHA256 = some ⟨.invalidGrant, "invalid pkce"⟩ ∧
    validatePkce true false "" "" "" = none := by
  refine ⟨by decide, ?_, by decide⟩
  decide

/-- C8 (amended): a NON-EMPTY `code_verifier` whose byte length is
below 43 or above 128 is rejected with `invalid_request`, whatever the
stored challenge, method and PKCE configuration — the length check
runs before the challenge comparison. -/
theorem validatePkce_length_bounds (pkceIsEnabled profileIsFAPI2 : Bool)
    (codeVerifier sessionCodeChallenge sessionCodeChallengeMethod : String)
    (hne : codeVerifier ≠ "")
    (hlen : goStrLen codeVerifier < 43 ∨ 128 < goStrLen codeVerifier) :
    validatePkce pkceIsEnabled profileIsFAPI2 codeVerifier sessionCodeChallenge
      sessionCodeChallengeMethod = some ⟨.invalidRequest, "invalid code verifier"⟩ := by
  simp [validatePkce, hne, hlen]

/-- Witness for C8 (amended) at a 12-byte verifier. -/
theorem validatePkce_length_bounds_witness :
    validatePkce true false "too_short_vf" "whatever_challenge" CodeChallengeMethodPlain =
      some ⟨.invalidRequest, "invalid code verifier"⟩ :=
  validatePkce_length_bounds true false "too_short_vf" "whatever_challenge"
    CodeChallengeMethodPlain (by decide) (Or.inl (by decide))

/-- Go's saturating NumericDate difference compares like the exact
difference for thresholds inside `(-9223372036, 9223372036)`. -/
theorem goSubSeconds_gt_iff (e i m : Int) (h0 : -9223372036 < m)
    (h1 : m < 9223372036) :
    m < goSubSeconds e i ↔ m < e - i := by
  have htdivMax : Int.tdiv 9223372036854775807 1000000000 = 9223372036 := by decide
  have htdivMin : Int.tdiv (-9223372036854775808) 1000000000 = -9223372036 := by decide
  simp only [goSubSeconds]
  split_ifs with hA hB
  · have hd : 9223372037 ≤ e - i := by
      by_contra hlt
      push_neg at hlt
      have : (e - i) * 1000000000 ≤ 9223372036 * 1000000000 :=
        mul_le_mul_of_nonneg_right (by omega) (by norm_num)
      omega
    rw [htdivMax]
    omega
  · have hd : e - i ≤ -9223372037 := by
      by_contra hlt
      push_neg at hlt
      have : (-9223372036) * 1000000000 ≤ (e - i) * 1000000000 :=
        mul_le_mul_of_nonneg_right (by omega) (by norm_num)
      omega
    rw [htdivMin]
    omega
  · rw [Int.mul_tdiv_cancel _ (by norm_num)]

/-- C6: for both JWT client-assertion methods, the shared claim check
fails with `invalid_client` when `exp` or `iat` is absent or when
`exp - iat` exceeds the configured maximum lifetime, and an assertion
with both claims present and `exp - iat` within the maximum passes the
lifetime check (proceeding to the go-jose issuer/subject/audience
validation).  The bounds on `maxLifetimeSecs` keep the configured
maximum inside the saturation range of Go's duration arithmetic. -/
theorem areAssertionClaimsValid_lifetime (expiry issuedAt : Option Int)
    (leewayValidationOK : Bool) (maxLifetimeSecs : Int)
    (hmax0 : 0 ≤ maxLifetimeSecs) (hmax : maxLifetimeSecs < 9223372036) :
    (expiry = none ∨ issuedAt = none →
      areAssertionClaimsValid expiry issuedAt leewayValidationOK maxLifetimeSecs =
        some ⟨.invalidClient, "invalid time claim in the assertion"⟩) ∧
    (∀ e i, expiry = some e → issuedAt = some i → maxLifetimeSecs < e - i →
      areAssertionClaimsValid expiry issuedAt leewayValidationOK maxLifetimeSecs =
        some ⟨.invalidClient, "invalid time claim in the assertion"⟩) ∧
    (∀ e i, expiry = some e → issuedAt = some i → e - i ≤ maxLifetimeSecs →
      areAssertionClaimsValid expiry issuedAt leewayValidationOK maxLifetimeSecs =
        (if leewayValidationOK then none
          else some ⟨.invalidClient, "invalid assertion"⟩)) := by
  refine ⟨?_, ?_, ?_⟩
  · rintro (rfl | rfl)
    · rfl
    · cases expiry <;> rfl
  · rintro e i rfl rfl hgt
    have := (goSubSeconds_gt_iff e i maxLifetimeSecs (by omega) hmax).mpr hgt
    simp only [areAssertionClaimsValid]
    rw [if_pos this]
  · rintro e i rfl rfl hle
    have hnot : ¬ maxLifetimeSecs < goSubSeconds e i := by
      rw [goSubSeconds_gt_iff e i maxLifetimeSecs (by omega) hmax]
      omega
    simp only [areAssertionClaimsValid]
    rw [if_neg hnot]
    cases leewayValidationOK <;> simp

/-- Witness for C6: a 300 s assertion window against maxima 300 and
299, and a missing `exp`. -/
theorem areAssertionClaimsValid_lifetime_witness :
    areAssertionClaimsValid (some 1000) (some 700) true 300 = none ∧
    areAssertionClaimsValid (some 1000) (some 700) true 299 =
      some ⟨.invalidClient, "invalid time claim in the assertion"⟩ ∧
    areAssertionClaimsValid none (some 700) true 300 =
      some ⟨.invalidClient, "invalid time claim in the assertion"⟩ := by
  refine ⟨?_, ?_, ?_⟩
  · have := (areAssertionClaimsValid_lifetime (some 1000) (some 700) true 300
      (by decide) (by decide)).2.2 1000 700 rfl rfl (by decide)
    simpa using this
  · exact (areAssertionClaimsValid_lifetime (some 1000) (some 700) true 299
      (by decide) (by decide)).2.1 1000 700 rfl rfl (by decide)
  · exact (areAssertionClaimsValid_lifetime none (some 700) true 300
      (by decide) (by decide)).1 (Or.inl rfl)

/-- Inner parameters for the C3 counterexample: a non-empty
`RequestURI` and a nil `MaxAuthnAgeSecs`. -/
def mergeInsideCex : AuthorizationParameters :=
  { RequestURI := "urn:ietf:params:oauth:request_uri:xyz", State := "inner_state" }

/-- Outer parameters for the C3 counterexample: a non-nil
`MaxAuthnAgeSecs`. -/
def mergeOutsideCex : AuthorizationParameters :=
  { MaxAuthnAgeSecs := some 300, State := "outer_state" }

/-- C3 counterexample: `Merge` differs from the spec's field law
(`specMerge`) — the merged `RequestURI` is empty although the inner
one is not, and the merged `MaxAuthnAgeSecs` stays nil although the
inner one is nil and the outer one is not (`nonEmptyOrDefault` is
applied to the `*int` field, and `reflect.Value.String` on a pointer
never yields `""`). -/
theorem merge_field_law_counterexample :
    mergeInsideCex.Merge mergeOutsideCex ≠ specMerge mergeInsideCex mergeOutsideCex ∧
    mergeInsideCex.RequestURI ≠ "" ∧
    (mergeInsideCex.Merge mergeOutsideCex).RequestURI = "" ∧
    mergeInsideCex.MaxAuthnAgeSecs = none ∧
    mergeOutsideCex.MaxAuthnAgeSecs = some 300 ∧
    (mergeInsideCex.Merge mergeOutsideCex).MaxAuthnAgeSecs = none := by
  decide

/-- C3 (amended): field by field, `Merge(inner, outer)` takes the
non-empty inner value (non-nil for `Claims` and
`AuthorizationDetails`) and falls back to the outer one — except that
the merged `RequestURI` and `RequestObject` are always empty and the
merged `MaxAuthnAgeSecs` is always the inner value, nil or not. -/
theorem merge_field_law (insideParams outsideParams : AuthorizationParameters) :
    (insideParams.Merge outsideParams).RequestURI = "" ∧
    (insideParams.Merge outsideParams).RequestObject = "" ∧
    (insideParams.Merge outsideParams).RedirectURI =
      (if insideParams.RedirectURI = "" then outsideParams.RedirectURI
        else insideParams.RedirectURI) ∧
    (insideParams.Merge outsideParams).ResponseMode =
      (if insideParams.ResponseMode = "" then outsideParams.ResponseMode
        else insideParams.ResponseMode) ∧
    (insideParams.Merge outsideParams).ResponseType =
      (if insideParams.ResponseType = "" then outsideParams.ResponseType
        else insideParams.ResponseType) ∧
    (insideParams.Merge outsideParams).Scopes =
      (if insideParams.Scopes = "" then outsideParams.Scopes
        else insideParams.Scopes) ∧
    (insideParams.Merge outsideParams).State =
      (if insideParams.State = "" then outsideParams.State
        else insideParams.State) ∧
    (insideParams.Merge outsideParams).Nonce =
      (if insideParams.Nonce = "" then outsideParams.Nonce
        else insideParams.Nonce) ∧
    (insideParams.Merge outsideParams).CodeChallenge =
      (if insideParams.CodeChallenge = "" then outsideParams.CodeChallenge
        else insideParams.CodeChallenge) ∧
    (insideParams.Merge outsideParams).CodeChallengeMethod =
      (if insideParams.CodeChallengeMethod = "" then outsideParams.CodeChallengeMethod
        else insideParams.CodeChallengeMethod) ∧
    (insideParams.Merge outsideParams).Prompt =
      (if insideParams.Prompt = "" then outsideParams.Prompt
        else insideParams.Prompt) ∧
    (insideParams.Merge outsideParams).MaxAuthnAgeSecs = insideParams.MaxAuthnAgeSecs ∧
    (insideParams.Merge outsideParams).Display =
      (if insideParams.Display = "" then outsideParams.Display
        else insideParams.Display) ∧
    (insideParams.Merge outsideParams).ACRValues =
      (if insideParams.ACRValues = "" then outsideParams.ACRValues
        else insideParams.ACRValues) ∧
    (insideParams.Merge outsideParams).Claims =
      (if insideParams.Claims = none then outsideParams.Claims
        else insideParams.Claims) ∧
    (insideParams.Merge outsideParams).AuthorizationDetails =
      (if insideParams.AuthorizationDetails = none then outsideParams.AuthorizationDetails
        else insideParams.AuthorizationDetails) := by
  refine ⟨rfl, rfl, ?_, ?_, ?_, ?_, ?_, ?_, ?_, ?_, ?_, rfl, ?_, ?_, ?_, ?_⟩ <;>
    simp only [AuthorizationParameters.Merge, nonEmptyOrDefault, nonNilOrDefault] <;>
    first
      | rfl
      | (split <;> simp_all)

/-- `allEquals` on a non-empty list holds exactly when every element
equals the head. -/
theorem allEquals_iff (c : String) (rest : List String) :
    allEquals (c :: rest) = true ↔ ∀ x ∈ c :: rest, x = c := by
  simp [allEquals]

/-- In a list with at most one element satisfying `p`, two satisfying
members are equal. -/
theorem mem_eq_of_filter_length_le_one {α : Type} {l : List α} {p : α → Bool}
    (h : (l.filter p).length ≤ 1) {x y : α} (hx : x ∈ l) (hpx : p x = true)
    (hy : y ∈ l) (hpy : p y = true) : x = y := by
  have hx' : x ∈ l.filter p := List.mem_filter.mpr ⟨hx, hpx⟩
  have hy' : y ∈ l.filter p := List.mem_filter.mpr ⟨hy, hpy⟩
  cases hfl : l.filter p with
  | nil => rw [hfl] at hx'; exact absurd hx' (List.not_mem_nil x)
  | cons a t =>
      cases t with
      | nil =>
          rw [hfl] at hx' hy'
          simp only [List.mem_singleton] at hx' hy'
          rw [hx', hy']
      | cons b t2 =>
          rw [hfl] at h
          simp at h

/-- After deleting the session a unique request URI resolves to, the
URI no longer resolves. -/
theorem getByRequestUri_delete_none (store : ParStore) (uri : String)
    (session : AuthnSessionPAR)
    (hfind : getByRequestUri store uri = some session)
    (huniq : (store.filter fun s => s.RequestUri = uri).length ≤ 1) :
    getByRequestUri (parStoreDelete store session.Id) uri = none := by
  have hmem : session ∈ store := List.mem_of_find?_eq_some hfind
  have hpred : session.RequestUri = uri := by
    have := List.find?_some hfind
    simpa using this
  rw [getByRequestUri, List.find?_eq_none]
  intro x hx hpx
  have hx' := List.mem_filter.mp hx
  have hxuri : x.RequestUri = uri := by simpa using hpx
  have hxs : x = session :=
    mem_eq_of_filter_length_le_one huniq hx'.1 (by simpa using hxuri) hmem
      (by simpa using hpred)
  have : x.Id ≠ session.Id := by simpa using hx'.2
  exact this (by rw [hxs])

/-- A request URI that does not resolve in the store is rejected with
`invalid_request`. -/
theorem initAuth_uri_absent (store : ParStore) (req : AuthorizeRequest) (now : Int)
    (newCallbackId : String) (policyAvailable : Bool) (stop : AuthnLoopStop)
    (h : getByRequestUri store req.RequestUri = none) :
    (initAuthenticationWithPAR store req now newCallbackId policyAvailable stop).1 =
      .error (.oauth ⟨.invalidRequest, "invalid request_uri"⟩) := by
  simp [initAuthenticationWithPAR, initValidAuthenticationSessionWithPAR, h]

/-- After one `/authorize` call with a unique, non-empty request URI,
the URI no longer resolves in the store (the session is deleted on a
validation failure and written back with a blank `RequestUri`
otherwise), provided a policy was available. -/
theorem initAuth_consumes_uri (store : ParStore) (req : AuthorizeRequest) (now : Int)
    (newCallbackId : String) (stop : AuthnLoopStop)
    (huri : req.RequestUri ≠ "")
    (huniq : (store.filter fun s => s.RequestUri = req.RequestUri).length ≤ 1) :
    getByRequestUri
      (initAuthenticationWithPAR store req now newCallbackId true stop).2
      req.RequestUri = none := by
  cases hfind : getByRequestUri store req.RequestUri with
  | none =>
      simp [initAuthenticationWithPAR, initValidAuthenticationSessionWithPAR, hfind]
  | some session =>
      have hdel := getByRequestUri_delete_none store req.RequestUri session hfind huniq
      cases hval : validateAuthorizeWithPARParams now session req with
      | some err =>
          have hstep : (initAuthenticationWithPAR store req now newCallbackId true stop).2 =
              parStoreDelete store session.Id := by
            simp [initAuthenticationWithPAR, initValidAuthenticationSessionWithPAR,
              hfind, hval]
          rw [hstep]
          exact hdel
      | none =>
          have hstep : (initAuthenticationWithPAR store req now newCallbackId true stop).2 =
              updateOrDeleteSession store
                { session with RequestUri := "", CallbackId := newCallbackId } stop := by
            simp [initAuthenticationWithPAR, initValidAuthenticationSessionWithPAR,
              hfind, hval]
          rw [hstep]
          cases stop with
          | failureStep =>
              rw [updateOrDeleteSession]
              exact hdel
          | successStep =>
              rw [updateOrDeleteSession]
              by_cases hcode : ResponseContainsCode session.ResponseType = true
              · rw [if_neg (by simpa using hcode)]
                have h2 := hdel
                simp only [getByRequestUri, parStoreDelete] at h2
                rw [List.find?_eq_none] at h2
                simp [getByRequestUri, parStoreCreateOrUpdate, parStoreDelete,
                  List.find?_eq_none, List.find?, Ne.symm huri]
                intro x hx hid
                have h3 := h2 x (List.mem_filter.mpr ⟨hx, by simpa using hid⟩)
                simpa using h3
              · rw [if_pos (by simpa using hcode)]
                exact hdel
          | intermediateStep stepId =>
              rw [updateOrDeleteSession]
              have h2 := hdel
              simp only [getByRequestUri, parStoreDelete] at h2
              rw [List.find?_eq_none] at h2
              simp [getByRequestUri, parStoreCreateOrUpdate, parStoreDelete,
                List.find?_eq_none, List.find?, Ne.symm huri]
              intro x hx hid
              have h3 := h2 x (List.mem_filter.mpr ⟨hx, by simpa using hid⟩)
              simpa using h3

/-- C5 counterexample: a stored PAR session whose client differs from
the requesting client is rejected with `access_denied`, not
`invalid_request`. -/
theorem authorize_with_par_client_mismatch_counterexample :
    (initValidAuthenticationSessionWithPAR
      [⟨"sess1", "client_a", "urn:ietf:params:oauth:request_uri:r1", "", "",
        1000, "code", "", "", ""⟩]
      ⟨"client_b", "urn:ietf:params:oauth:request_uri:r1", "", "", "", ""⟩
      1030 "cb1").1 = .error ⟨.accessDenied, "invalid client"⟩ := by
  rfl

/-- C5 (amended): on GET /authorize with a `request_uri`, an expired
PAR session and a non-resolving (for example already used)
`request_uri` are rejected with `invalid_request`, a client mismatch
is rejected with `access_denied`, and on successful load the
`request_uri` is consumed, so that any second GET presenting the same
`request_uri` is rejected with `invalid_request` — provided an
authentication policy was available to the first GET. -/
theorem authorize_with_par_flow (store : ParStore) (req : AuthorizeRequest)
    (now : Int) (newCallbackId : String) (stop : AuthnLoopStop)
    (huri : req.RequestUri ≠ "")
    (huniq : (store.filter fun s => s.RequestUri = req.RequestUri).length ≤ 1) :
    (∀ session, getByRequestUri store req.RequestUri = some session →
      now > session.CreatedAtTimestamp + PARLifetimeSecs →
      (initAuthenticationWithPAR store req now newCallbackId true stop).1 =
        .error (.oauth ⟨.invalidRequest, "the request uri expired"⟩)) ∧
    (∀ session, getByRequestUri store req.RequestUri = some session →
      ¬ now > session.CreatedAtTimestamp + PARLifetimeSecs →
      session.ClientId ≠ req.ClientId →
      (initAuthenticationWithPAR store req now newCallbackId true stop).1 =
        .error (.oauth ⟨.accessDenied, "invalid client"⟩)) ∧
    (getByRequestUri store req.RequestUri = none →
      (initAuthenticationWithPAR store req now newCallbackId true stop).1 =
        .error (.oauth ⟨.invalidRequest, "invalid request_uri"⟩)) ∧
    (∀ req2 now2 cb2 pol2 stop2, req2.RequestUri = req.RequestUri →
      (initAuthenticationWithPAR
        (initAuthenticationWithPAR store req now newCallbackId true stop).2
        req2 now2 cb2 pol2 stop2).1 =
          .error (.oauth ⟨.invalidRequest, "invalid request_uri"⟩)) := by
  refine ⟨?_, ?_, ?_, ?_⟩
  · intro session hfind hexp
    have hval : validateAuthorizeWithPARParams now session req =
        some ⟨.invalidRequest, "the request uri expired"⟩ := by
      rw [validateAuthorizeWithPARParams, if_pos hexp]
    simp [initAuthenticationWithPAR, initValidAuthenticationSessionWithPAR, hfind, hval]
  · intro session hfind hexp hclient
    have hval : validateAuthorizeWithPARParams now session req =
        some ⟨.accessDenied, "invalid client"⟩ := by
      rw [validateAuthorizeWithPARParams, if_neg hexp, if_pos hclient]
    simp [initAuthenticationWithPAR, initValidAuthenticationSessionWithPAR, hfind, hval]
  · intro hfind
    exact initAuth_uri_absent store req now newCallbackId true stop hfind
  · intro req2 now2 cb2 pol2 stop2 huri2
    refine initAuth_uri_absent _ req2 now2 cb2 pol2 stop2 ?_
    rw [huri2]
    exact initAuth_consumes_uri store req now newCallbackId stop huri huniq

/-- Witness for C5: a concrete PAR session consumed by a first GET
(the policy suspends at an intermediate step); the second GET with the
same `request_uri` fails with `invalid_request`, and a sibling store
exercises the expired and mismatch branches. -/
theorem authorize_with_par_flow_witness :
    (initAuthenticationWithPAR
      (initAuthenticationWithPAR
        [⟨"sess1", "client_a", "urn:ietf:params:oauth:request_uri:r1", "", "",
          1000, "code", "", "", ""⟩]
        ⟨"client_a", "urn:ietf:params:oauth:request_uri:r1", "", "", "", ""⟩
        1030 "cb1" true (.intermediateStep "step2")).2
      ⟨"client_a", "urn:ietf:params:oauth:request_uri:r1", "", "", "", ""⟩
      1031 "cb2" true (.intermediateStep "step2")).1 =
        .error (.oauth ⟨.invalidRequest, "invalid request_uri"⟩) :=
  (authorize_with_par_flow
    [⟨"sess1", "client_a", "urn:ietf:params:oauth:request_uri:r1", "", "",
      1000, "code", "", "", ""⟩]
    ⟨"client_a", "urn:ietf:params:oauth:request_uri:r1", "", "", "", ""⟩
    1030 "cb1" (.intermediateStep "step2") (by decide) (by decide)).2.2.2
    ⟨"client_a", "urn:ietf:params:oauth:request_uri:r1", "", "", "", ""⟩
    1031 "cb2" true (.intermediateStep "step2") rfl

/-- A missing authorization code leaves the stores untouched and
fails: with `authn.Client`'s error when client authentication fails
(checked before the channel receive), else with `invalid_grant`. -/
theorem handle_code_absent (ctx : TokenCtx) (s : StoreState) (req : tokenRequest)
    (hc : req.AuthorizationCode ≠ "")
    (habs : lookupByAuthorizationCode s req.AuthorizationCode = none) :
    handleAuthorizationCodeGrantTokenCreation ctx s req =
      ((match ctx.clientAuthnResult with
        | .error err => .error err
        | .ok _ => .error ⟨.invalidGrant, "invalid authorization code"⟩), s, []) := by
  cases hcar : ctx.clientAuthnResult <;>
    simp [handleAuthorizationCodeGrantTokenCreation, hc, getSessionByAuthorizationCode,
      habs, hcar]

/-- `generateAuthorizationCodeGrantSession` never touches the
AuthnSession store. -/
theorem generate_authnSessions (ctx : TokenCtx) (s : StoreState) (token : Token)
    (grantOptions : GrantOptions) :
    (generateAuthorizationCodeGrantSession ctx s token grantOptions).2.1.authnSessions =
      s.authnSessions := by
  simp only [generateAuthorizationCodeGrantSession]
  repeat' split
  all_goals rfl

/-- `generateAuthorizationCodeGrantSession` either fails or issues
exactly one grant-session write. -/
theorem generate_error_or_save (ctx : TokenCtx) (s : StoreState) (token : Token)
    (grantOptions : GrantOptions) :
    (∃ e, (generateAuthorizationCodeGrantSession ctx s token grantOptions).1 =
      .error e) ∨
    (∃ gid, (generateAuthorizationCodeGrantSession ctx s token grantOptions).2.2 =
      [.saveGrantSession gid]) := by
  simp only [generateAuthorizationCodeGrantSession]
  repeat' split
  all_goals first
    | (left; exact ⟨_, rfl⟩)
    | (right; exact ⟨_, rfl⟩)

/-- Once the session carrying the presented code is found, the handler
has deleted it — whatever happens afterwards. -/
theorem handle_found_state (ctx : TokenCtx) (s : StoreState) (req : tokenRequest)
    (session : AuthnSession) (hc : req.AuthorizationCode ≠ "")
    (hfind : lookupByAuthorizationCode s req.AuthorizationCode = some session) :
    (handleAuthorizationCodeGrantTokenCreation ctx s req).2.1.authnSessions =
      s.authnSessions.filter fun ss => ss.ID ≠ session.ID := by
  cases hcar : ctx.clientAuthnResult with
  | error err =>
      simp [handleAuthorizationCodeGrantTokenCreation, getSessionByAuthorizationCode,
        hfind, hc, hcar, deleteAuthnSession]
  | ok client =>
      cases hval : validateAuthorizationCodeGrantRequest ctx req client session with
      | some err =>
          simp [handleAuthorizationCodeGrantTokenCreation, getSessionByAuthorizationCode,
            hfind, hc, hcar, hval, deleteAuthnSession]
      | none =>
          cases hopt : newAuthorizationCodeGrantOptions ctx session with
          | error err =>
              simp [handleAuthorizationCodeGrantTokenCreation,
                getSessionByAuthorizationCode, hfind, hc, hcar, hval, hopt,
                deleteAuthnSession]
          | ok grantOptions =>
              cases hmk : ctx.makeTokenResult with
              | error err =>
                  simp [handleAuthorizationCodeGrantTokenCreation,
                    getSessionByAuthorizationCode, hfind, hc, hcar, hval, hopt, hmk,
                    deleteAuthnSession]
              | ok token =>
                  have hgen := generate_authnSessions ctx
                    (deleteAuthnSession s session.ID) token grantOptions
                  rcases hg : generateAuthorizationCodeGrantSession ctx
                      (deleteAuthnSession s session.ID) token grantOptions with
                    ⟨res, s2, evs⟩
                  rw [hg] at hgen
                  have hgen2 : s2.authnSessions =
                      (deleteAuthnSession s session.ID).authnSessions := hgen
                  simp only [handleAuthorizationCodeGrantTokenCreation,
                    getSessionByAuthorizationCode, hfind, hcar, hval, hopt, hmk]
                  rw [if_neg hc, hg]
                  cases res with
                  | error err => simpa [deleteAuthnSession] using hgen2
                  | ok grantSession =>
                      cases hmid : ctx.makeIDTokenResult with
                      | error err =>
                          by_cases hopenid :
                              ScopesContainsOpenID session.GrantedScopes = true <;>
                            simp [hopenid, hmid, hgen2, deleteAuthnSession]
                      | ok idToken =>
                          by_cases hopenid :
                              ScopesContainsOpenID session.GrantedScopes = true <;>
                            simp [hopenid, hmid, hgen2, deleteAuthnSession]

/-- `find?` stays `none` on a filtered list. -/
theorem find?_none_of_filter {α : Type} (l : List α) (p q : α → Bool)
    (h : l.find? p = none) : (l.filter q).find? p = none := by
  rw [List.find?_eq_none] at h ⊢
  intro x hx
  exact h x (List.mem_filter.mp hx).1

/-- No later redemption can resurrect an absent authorization code. -/
theorem handle_preserves_lookup_none (ctx : TokenCtx) (s : StoreState)
    (req : tokenRequest) (c : String)
    (habs : lookupByAuthorizationCode s c = none) :
    lookupByAuthorizationCode
      (handleAuthorizationCodeGrantTokenCreation ctx s req).2.1 c = none := by
  by_cases hc : req.AuthorizationCode = ""
  · simpa [handleAuthorizationCodeGrantTokenCreation, hc] using habs
  · cases hfind : lookupByAuthorizationCode s req.AuthorizationCode with
    | none => rw [handle_code_absent ctx s req hc hfind]; exact habs
    | some session =>
        have hstate := handle_found_state ctx s req session hc hfind
        show ((handleAuthorizationCodeGrantTokenCreation ctx s req).2.1.authnSessions).find?
          (fun ss => ss.AuthorizationCode = c) = none
        rw [hstate]
        exact find?_none_of_filter _ _ _ habs

/-- The first redemption presenting a (unique) code removes the
session indexed by it, successful or not. -/
theorem handle_consumes (ctx : TokenCtx) (s : StoreState) (req : tokenRequest)
    (hc : req.AuthorizationCode ≠ "")
    (huniq : (s.authnSessions.filter
      fun ss => ss.AuthorizationCode = req.AuthorizationCode).length ≤ 1) :
    lookupByAuthorizationCode
      (handleAuthorizationCodeGrantTokenCreation ctx s req).2.1
      req.AuthorizationCode = none := by
  cases hfind : lookupByAuthorizationCode s req.AuthorizationCode with
  | none => exact handle_preserves_lookup_none ctx s req _ hfind
  | some session =>
      have hmem : session ∈ s.authnSessions := List.mem_of_find?_eq_some hfind
      have hpred : session.AuthorizationCode = req.AuthorizationCode := by
        have := List.find?_some hfind
        simpa using this
      have hstate := handle_found_state ctx s req session hc hfind
      show ((handleAuthorizationCodeGrantTokenCreation ctx s req).2.1.authnSessions).find?
        (fun ss => ss.AuthorizationCode = req.AuthorizationCode) = none
      rw [hstate, List.find?_eq_none]
      intro x hx hpx
      have hx' := List.mem_filter.mp hx
      have hxcode : x.AuthorizationCode = req.AuthorizationCode := by simpa using hpx
      have hxs : x = session :=
        mem_eq_of_filter_length_le_one huniq hx'.1 (by simpa using hxcode) hmem
          (by simpa using hpred)
      have : x.ID ≠ session.ID := by simpa using hx'.2
      exact this (by rw [hxs])

/-- On success the handler performed exactly the session delete
followed by the grant-session write, in that order. -/
theorem handle_success_events (ctx : TokenCtx) (s : StoreState) (req : tokenRequest)
    (resp : tokenResponse)
    (hok : (handleAuthorizationCodeGrantTokenCreation ctx s req).1 = .ok resp) :
    ∃ sessionID grantID,
      (handleAuthorizationCodeGrantTokenCreation ctx s req).2.2 =
        [.deleteAuthnSession sessionID, .saveGrantSession grantID] := by
  by_cases hc : req.AuthorizationCode = ""
  · rw [show handleAuthorizationCodeGrantTokenCreation ctx s req =
      (.error ⟨.invalidRequest, "invalid authorization code"⟩, s, []) by
        simp [handleAuthorizationCodeGrantTokenCreation, hc]] at hok
    exact absurd hok (by simp)
  · cases hfind : lookupByAuthorizationCode s req.AuthorizationCode with
    | none =>
        rw [handle_code_absent ctx s req hc hfind] at hok
        cases hcar : ctx.clientAuthnResult <;> rw [hcar] at hok <;> simp at hok
    | some session =>
        refine ⟨session.ID, ?_⟩
        cases hcar : ctx.clientAuthnResult with
        | error err =>
            have hres : (handleAuthorizationCodeGrantTokenCreation ctx s req).1 =
                .error err := by
              simp only [handleAuthorizationCodeGrantTokenCreation,
                getSessionByAuthorizationCode, hfind, hcar]
              rw [if_neg hc]
            rw [hres] at hok
            exact absurd hok (by simp)
        | ok client =>
            cases hval : validateAuthorizationCodeGrantRequest ctx req client session with
            | some err =>
                have hres : (handleAuthorizationCodeGrantTokenCreation ctx s req).1 =
                    .error err := by
                  simp only [handleAuthorizationCodeGrantTokenCreation,
                    getSessionByAuthorizationCode, hfind, hcar, hval]
                  rw [if_neg hc]
                rw [hres] at hok
                exact absurd hok (by simp)
            | none =>
                cases hopt : newAuthorizationCodeGrantOptions ctx session with
                | error err =>
                    have hres : (handleAuthorizationCodeGrantTokenCreation ctx s req).1 =
                        .error err := by
                      simp only [handleAuthorizationCodeGrantTokenCreation,
                        getSessionByAuthorizationCode, hfind, hcar, hval, hopt]
                      rw [if_neg hc]
                    rw [hres] at hok
                    exact absurd hok (by simp)
                | ok grantOptions =>
                    cases hmk : ctx.makeTokenResult with
                    | error err =>
                        have hres :
                            (handleAuthorizationCodeGrantTokenCreation ctx s req).1 =
                              .error err := by
                          simp only [handleAuthorizationCodeGrantTokenCreation,
                            getSessionByAuthorizationCode, hfind, hcar, hval, hopt, hmk]
                          rw [if_neg hc]
                        rw [hres] at hok
                        exact absurd hok (by simp)
                    | ok token =>
                        have hgen := generate_error_or_save ctx
                          (deleteAuthnSession s session.ID) token grantOptions
                        rcases hg : generateAuthorizationCodeGrantSession ctx
                            (deleteAuthnSession s session.ID) token grantOptions with
                          ⟨res, s2, evs⟩
                        rw [hg] at hgen
                        cases res with
                        | error err =>
                            have hres :
                                (handleAuthorizationCodeGrantTokenCreation ctx s req).1 =
                                  .error err := by
                              simp only [handleAuthorizationCodeGrantTokenCreation,
                                getSessionByAuthorizationCode, hfind, hcar, hval,
                                hopt, hmk]
                              rw [if_neg hc, hg]
                            rw [hres] at hok
                            exact absurd hok (by simp)
                        | ok grantSession =>
                            rcases hgen with ⟨e, he⟩ | ⟨gid, hevs⟩
                            · exact absurd he (by simp)
                            refine ⟨gid, ?_⟩
                            simp only at hevs
                            have hev2 :
                                (handleAuthorizationCodeGrantTokenCreation ctx s req).2.2 =
                                  StoreEvent.deleteAuthnSession session.ID :: evs := by
                              simp only [handleAuthorizationCodeGrantTokenCreation,
                                getSessionByAuthorizationCode, hfind, hcar, hval,
                                hopt, hmk]
                              rw [if_neg hc, hg]
                              cases hmid : ctx.makeIDTokenResult <;>
                                by_cases hopenid :
                                  ScopesContainsOpenID session.GrantedScopes = true <;>
                                simp [hopenid, hmid]
                            rw [hev2, hevs]

/-- Any redemption presenting an absent code, at any later point,
fails: with the client-authentication error of that attempt when
client authentication fails, and with `invalid_grant` when it
succeeds. -/
theorem redeemSeq_all_fail (c : String) (hc : c ≠ "") :
    ∀ (inputs : List (TokenCtx × tokenRequest)) (s : StoreState),
      lookupByAuthorizationCode s c = none →
      ∀ out ∈ redeemSeq s inputs, out.2.2.AuthorizationCode = c →
        (∀ e, out.2.1.clientAuthnResult = .error e → out.1 = .error e) ∧
        (∀ client, out.2.1.clientAuthnResult = .ok client →
          out.1 = .error ⟨.invalidGrant, "invalid authorization code"⟩) := by
  intro inputs
  induction inputs with
  | nil =>
      intro s habs out hout
      simp [redeemSeq] at hout
  | cons p rest ih =>
      intro s habs out hout hcode
      obtain ⟨pctx, preq⟩ := p
      simp only [redeemSeq, List.mem_cons] at hout
      rcases hout with h | h
      · subst h
        simp only at hcode ⊢
        have hcabs : lookupByAuthorizationCode s preq.AuthorizationCode = none := by
          rw [hcode]; exact habs
        have habsent := handle_code_absent pctx s preq (by rw [hcode]; exact hc) hcabs
        constructor
        · intro e he
          rw [habsent]
          simp [he]
        · intro client hclient
          rw [habsent]
          simp [hclient]
      · exact ih _ (handle_preserves_lookup_none pctx s preq c habs) out h hcode

/-- C1 (amended): the first `/token` authorization_code redemption
presenting a code deletes the AuthnSession indexed by it before the
new GrantSession is written (on success the store trace is exactly
the delete followed by the write), the code no longer resolves
afterwards, and every subsequent redemption presenting it — whatever
happens in between — fails: with that attempt's client-authentication
error when client authentication fails, and with `invalid_grant` when
it succeeds; hence at most the first redemption can consume the code
successfully. -/
theorem authorization_code_single_use (ctx : TokenCtx) (s : StoreState)
    (req : tokenRequest) (hc : req.AuthorizationCode ≠ "")
    (huniq : (s.authnSessions.filter
      fun ss => ss.AuthorizationCode = req.AuthorizationCode).length ≤ 1) :
    (∀ resp, (handleAuthorizationCodeGrantTokenCreation ctx s req).1 = .ok resp →
      ∃ sessionID grantID,
        (handleAuthorizationCodeGrantTokenCreation ctx s req).2.2 =
          [.deleteAuthnSession sessionID, .saveGrantSession grantID]) ∧
    lookupByAuthorizationCode
      (handleAuthorizationCodeGrantTokenCreation ctx s req).2.1
      req.AuthorizationCode = none ∧
    (∀ later, ∀ out ∈ redeemSeq
        (handleAuthorizationCodeGrantTokenCreation ctx s req).2.1 later,
      out.2.2.AuthorizationCode = req.AuthorizationCode →
      (∀ e, out.2.1.clientAuthnResult = .error e → out.1 = .error e) ∧
      (∀ client, out.2.1.clientAuthnResult = .ok client →
        out.1 = .error ⟨.invalidGrant, "invalid authorization code"⟩)) :=
  ⟨fun resp hok => handle_success_events ctx s req resp hok,
   handle_consumes ctx s req hc huniq,
   fun later out hout hcode =>
     redeemSeq_all_fail req.AuthorizationCode hc later _
       (handle_consumes ctx s req hc huniq) out hout hcode⟩

/-- A concrete store holding one AuthnSession with an outstanding
authorization code, and a context whose oracles all succeed. -/
def witnessSession : AuthnSession :=
  { ID := "sess1"
    ClientID := "client1"
    AuthorizationCode := "authzcode1"
    RedirectURI := "https://rp.example/cb"
    Scopes := ""
    CodeChallenge := ""
    CodeChallengeMethod := ""
    Subject := "user1"
    GrantedScopes := ""
    ExpiresAtTimestamp := 2000 }

def witnessClient : Client :=
  { ID := "client1", Scopes := "openid", GrantTypes := ["authorization_code"] }

def witnessCtx : TokenCtx :=
  { now := 1500
    pkceIsEnabled := true
    profileIsFAPI2 := false
    authorizationDetailsParameterIsEnabled := false
    refreshTokenLifetimeSecs := 3600
    clientAuthnResult := .ok witnessClient
    tokenOptionsResult := .ok { TokenFormat := "jwt", TokenLifetimeSecs := 60 }
    makeTokenResult := .ok { ID := "tok1", Value := "at.value", Typ := "Bearer" }
    makeIDTokenResult := .ok "id.token"
    bindingCheckResult := none
    newGrantSessionID := "grant1"
    newRefreshToken := .ok "refresh1" }

def witnessStore : StoreState := { authnSessions := [witnessSession], grantSessions := [] }

def witnessReq : tokenRequest :=
  { AuthorizationCode := "authzcode1", RedirectURI := "https://rp.example/cb",
    CodeVerifier := "", Scopes := "" }

/-- Witness for C1: the concrete first redemption succeeds and its
store trace is exactly the session delete followed by the grant-session
write; the code then no longer resolves, and an immediate replay of the
same request by the same (successfully authenticating) client fails
with `invalid_grant`. -/
theorem authorization_code_single_use_witness :
    (handleAuthorizationCodeGrantTokenCreation witnessCtx witnessStore witnessReq).2.2 =
      [.deleteAuthnSession "sess1", .saveGrantSession "grant1"] ∧
    lookupByAuthorizationCode
      (handleAuthorizationCodeGrantTokenCreation witnessCtx witnessStore witnessReq).2.1
      "authzcode1" = none ∧
    (redeemSeq
      (handleAuthorizationCodeGrantTokenCreation witnessCtx witnessStore witnessReq).2.1
      [(witnessCtx, witnessReq)]).map (fun out => out.1) =
        [.error ⟨.invalidGrant, "invalid authorization code"⟩] := by
  refine ⟨by rfl, ?_, ?_⟩
  · exact (authorization_code_single_use witnessCtx witnessStore witnessReq
      (by decide) (by decide)).2.1
  · have := (authorization_code_single_use witnessCtx witnessStore witnessReq
      (by decide) (by decide)).2.2 [(witnessCtx, witnessReq)]
    simp only [redeemSeq, List.map]
    rw [((this (_, witnessCtx, witnessReq) (by simp [redeemSeq]) rfl).2
      witnessClient rfl)]

/-- The context of a replaying client whose authentication fails. -/
def witnessCtxBadClient : TokenCtx :=
  { witnessCtx with
    clientAuthnResult := .error ⟨.invalidClient, "client not authenticated"⟩ }

/-- The store left behind by the witness's first (successful)
redemption. -/
def witnessReplayStore : StoreState :=
  (handleAuthorizationCodeGrantTokenCreation witnessCtx witnessStore witnessReq).2.1

/-- C1 counterexample: after the first redemption consumes the code,
a replay of the same code by a client whose authentication fails is
rejected with the client-authentication error (`invalid_client`), not
with `invalid_grant` — `authn.Client`'s error is returned before the
session result is received. -/
theorem authorization_code_replay_counterexample :
    (handleAuthorizationCodeGrantTokenCreation witnessCtx witnessStore witnessReq).1 =
      .ok { AccessToken := "at.value", ExpiresIn := 60, TokenType := "Bearer" } ∧
    (handleAuthorizationCodeGrantTokenCreation witnessCtxBadClient
        witnessReplayStore witnessReq).1 =
      .error ⟨.invalidClient, "client not authenticated"⟩ ∧
    (handleAuthorizationCodeGrantTokenCreation witnessCtxBadClient
        witnessReplayStore witnessReq).1 ≠
      .error ⟨.invalidGrant, "invalid authorization code"⟩ := by
  refine ⟨rfl, rfl, ?_⟩
  intro h
  have h2 : (Except.error ⟨.invalidClient, "client not authenticated"⟩ :
      Except OAuthErr tokenResponse) =
    .error ⟨.invalidGrant, "invalid authorization code"⟩ := h
  simp at h2

/-- C4 counterexample: a request whose only identification candidate
is a client assertion with an empty-string `iss` claim is accepted by
`getClientID`, which returns the empty client id — the claim requires
all candidates to be non-empty for identification to succeed. -/
theorem getClientID_empty_iss_counterexample :
    getClientID (fun _ => .parsed [("iss", .str "")]) ""
      ⟨"", "some.client.assertion"⟩ = some "" := by
  rfl

/-- C4 (amended): `getClientID` succeeds with `cid` exactly when the
candidate collection (form `client_id` and Basic username when
non-empty, plus the assertion's `iss` claim — possibly empty — when an
assertion is present) does not fail, is non-empty, starts with `cid`
and contains only `cid`. -/
theorem getClientID_characterization (parse : String → JWTParseOutcome)
    (basicClientID : String) (req : ClientAuthnRequest) (cid : String) :
    getClientID parse basicClientID req = some cid ↔
      ∃ cs, identificationCandidates parse basicClientID req = some cs ∧
        cs.head? = some cid ∧ ∀ x ∈ cs, x = cid := by
  simp only [getClientID, identificationCandidates, ne_eq, ite_not]
  cases happ : appendClientIDFromAssertion parse
      ((if req.ClientID = "" then [] else [req.ClientID]) ++
        if basicClientID = "" then [] else [basicClientID]) req with
  | none => simp
  | some cs =>
      cases cs with
      | nil => simp
      | cons c rest =>
          simp only [Option.some.injEq]
          constructor
          · intro h
            split at h
            · rename_i hall
              obtain rfl : c = cid := by injection h
              exact ⟨c :: rest, rfl, rfl, (allEquals_iff c rest).mp hall⟩
            · exact absurd h (by simp)
          · rintro ⟨cs, hcs, hhead, hall⟩
            obtain rfl : cs = c :: rest := hcs.symm
            obtain rfl : c = cid := by simpa using hhead
            simp [(allEquals_iff c rest).mpr hall]

end Goidc
